import Mathlib

/-!
Shallow embedding of the `servicecatalogtordf` mapping core
(`src/servicecatalogtordf/*.py`) and proofs about it.

The library maps in-memory entities (Service, Rule, LegalResource,
ResourceType, PublicOrganization, Evidence, Event, CriterionRequirement)
to RDF triples.  We embed:

* RDF triples as a record of subject / predicate / object, with objects
  being URI references, plain literals, language-tagged literals or
  datatype-typed literals (mirroring `rdflib.URIRef` / `rdflib.Literal`);
* the rdflib `Graph` as a duplicate-free list of triples, `Graph.add`
  mirroring rdflib's set-insertion;
* each entity as a record of its `__slots__`; a slot that Python leaves
  unset is `none` (reading it through a property raises `AttributeError`,
  which we model with `Except`);
* Python dicts of language-tagged text as insertion-ordered association
  lists, Python truthiness of the `getattr(self, attr, None)` guards as
  explicit `truthy…` functions;
* each `_to_graph` method as a function from the entity (plus the skolem
  URI the external skolemizer would mint, passed explicitly) to
  `Except` of the updated entity and the built graph.
-/

namespace SCT

/-- An RDF object position: a URI reference or an rdflib literal
(plain, language-tagged, or datatype-typed). -/
inductive Obj where
  | uri (u : String)
  | lit (s : String)
  | langLit (s lang : String)
  | typedLit (s datatype : String)
deriving DecidableEq, Repr

/-- An RDF triple.  In this library every subject is a URI string. -/
structure Triple where
  subj : String
  pred : String
  obj : Obj
deriving DecidableEq, Repr

/-- The `dct` namespace, `http://purl.org/dc/terms/`. -/
def dct (n : String) : String := "http://purl.org/dc/terms/" ++ n

/-- The `xsd` namespace, `http://www.w3.org/2001/XMLSchema#`. -/
def xsd (n : String) : String := "http://www.w3.org/2001/XMLSchema#" ++ n

/-- The `cpsv` namespace, `http://purl.org/vocab/cpsv#`. -/
def cpsv (n : String) : String := "http://purl.org/vocab/cpsv#" ++ n

/-- The `cv` namespace, `http://data.europa.eu/m8g/`. -/
def cv (n : String) : String := "http://data.europa.eu/m8g/" ++ n

/-- The `eli` namespace, `http://data.europa.eu/eli/ontology#`. -/
def eli (n : String) : String := "http://data.europa.eu/eli/ontology#" ++ n

/-- The `foaf` namespace, `http://xmlns.com/foaf/0.1/`. -/
def foaf (n : String) : String := "http://xmlns.com/foaf/0.1/" ++ n

/-- The `skos` namespace, `http://www.w3.org/2004/02/skos/core#`. -/
def skos (n : String) : String := "http://www.w3.org/2004/02/skos/core#" ++ n

/-- The `rdfs` namespace, `http://www.w3.org/2000/01/rdf-schema#`. -/
def rdfs (n : String) : String := "http://www.w3.org/2000/01/rdf-schema#" ++ n

/-- `rdf:type`, the predicate of the `RDF.type` triple. -/
def rdfType : String := "http://www.w3.org/1999/02/22-rdf-syntax-ns#type"

/-- rdflib's `Graph.add`: a graph is a set of triples, so adding an
already-present triple is a no-op.  We keep the graph as a
duplicate-free list. -/
def Graph.add (g : List Triple) (t : Triple) : List Triple :=
  if t ∈ g then g else g ++ [t]

/-- A fresh graph filled by a sequence of `add` calls, in order.
Namespace-prefix binding (`Graph.bind`) affects only serialization
readability, never triple identity, so it is not modelled. -/
def Graph.ofList (ts : List Triple) : List Triple :=
  ts.foldl Graph.add []

/-- A language-tagged-text dict (`{"en": "...", "nb": "..."}`) as an
insertion-ordered list of key/value pairs. -/
abbrev LangDict := List (String × String)

/-- Python truthiness of an optional string slot, as used in the
`if getattr(self, attr, None):` guards (`None` and `""` are falsy). -/
def truthyStr : Option String → Bool
  | none => false
  | some s => s != ""

/-- Python truthiness of an optional dict slot (`None` and `{}` falsy). -/
def truthyDict : Option LangDict → Bool
  | none => false
  | some m => !m.isEmpty

/-- Modelled from the spec: the external `skolemizer` package's
`Skolemizer.add_skolemization()`, which mints a URI of the shape
`<base>/.well-known/skolem/<token>` (spec section 6).  The base
authority and the opaque token are passed explicitly since the
generator is an external collaborator. -/
def Skolemizer.addSkolemization (baseurl token : String) : String :=
  baseurl ++ "/.well-known/skolem/" ++ token

/-- Modelled from the spec: the external `datacatalogtordf.URI` helper.
`URI(x)` raises when `x` is missing or empty; well-formedness
validation of nonempty strings is external and abstracted to
acceptance (the spec performs no validation beyond this). -/
def URI.make : Option String → Except String String
  | none => .error "InvalidURIError"
  | some s => if s = "" then .error "InvalidURIError" else .ok s

/-- The guarded identifier setter shared by Rule, LegalResource,
ResourceType, PublicOrganization, Evidence, Event and
CriterionRequirement: `if identifier: self._identifier = URI(identifier)`
— a falsy value is ignored and the stored slot is left unchanged. -/
def setIdentifierSlot (old v : Option String) : Option String :=
  if truthyStr v then v else old

/-- The identifier-resolution preamble of every `_to_graph` except
`Service._to_graph`: `if not getattr(self, "identifier", None):
self.identifier = Skolemizer.add_skolemization()` (the assignment goes
through the guarded setter). -/
def resolveIdentifier (old : Option String) (baseurl token : String) : Option String :=
  if truthyStr old then old
  else setIdentifierSlot old (some (Skolemizer.addSkolemization baseurl token))

/-- Reading a possibly-unset `_identifier` slot through its property
getter: `return self._identifier` raises `AttributeError` when the
slot was never assigned. -/
def getSlot : Option String → Except String String
  | some s => .ok s
  | none => .error "AttributeError"

/-- Emission rule for a language-tagged dict attribute:
`if getattr(self, attr, None): for key in attr: add((subj, pred,
Literal(attr[key], lang=key)))`. -/
def langSeg (subj pred : String) (d : Option LangDict) : List Triple :=
  match d with
  | none => []
  | some m =>
    if m.isEmpty then []
    else m.map (fun kv => ⟨subj, pred, Obj.langLit kv.2 kv.1⟩)

/-- Emission rule for a plain string-literal attribute:
`if getattr(self, attr, None): add((subj, pred, Literal(attr)))`. -/
def plainLitSeg (subj pred : String) (v : Option String) : List Triple :=
  match v with
  | none => []
  | some s => if s = "" then [] else [⟨subj, pred, Obj.lit s⟩]

/-- Emission rule for a datatype-typed literal attribute:
`add((subj, pred, Literal(attr, datatype=dt)))` under the same guard. -/
def typedLitSeg (subj pred dt : String) (v : Option String) : List Triple :=
  match v with
  | none => []
  | some s => if s = "" then [] else [⟨subj, pred, Obj.typedLit s dt⟩]

/-- Emission rule for an optional URI-valued attribute emitted as a
`URIRef` object (`Evidence.type`, `Event.type`). -/
def uriOptSeg (subj pred : String) (v : Option String) : List Triple :=
  match v with
  | none => []
  | some s => if s = "" then [] else [⟨subj, pred, Obj.uri s⟩]

/-- Emission rule for a list of bare URI strings:
`for u in xs: add((subj, pred, URIRef(u)))` (the empty-list guard is
redundant for the produced triples). -/
def uriListSeg (subj pred : String) (xs : List String) : List Triple :=
  if xs.isEmpty then [] else xs.map (fun u => ⟨subj, pred, Obj.uri u⟩)

/-- Emission rule for a reference-list attribute:
`for x in xs: add((subj, pred, URIRef(x.identifier)))`.  Reading a
referenced entity's unset identifier raises, which aborts the whole
serialization, so the result is in `Except`. -/
def refListSeg (subj pred : String) (getId : α → Except String String) :
    List α → Except String (List Triple)
  | [] => .ok []
  | x :: xs => do
    let u ← getId x
    let rest ← refListSeg subj pred getId xs
    .ok (⟨subj, pred, Obj.uri u⟩ :: rest)

/-- Emission rule for an optional single-reference attribute
(`Service.has_competent_authority`, `PublicOrganization.spatial_coverage`):
an object, when present, is always truthy. -/
def refOptSeg (subj pred : String) (getId : α → Except String String) :
    Option α → Except String (List Triple)
  | none => .ok []
  | some a => (getId a).map (fun u => [⟨subj, pred, Obj.uri u⟩])

/-- `legal_resource.ResourceType`: an identifier-only value object.
Its `__init__` takes `identifier: Optional[str] = None` and stores it
through the guarded setter. -/
structure ResourceType where
  identifier : Option String
deriving Repr

/-- `legal_resource.LegalResource` (`eli:LegalResource`).  It is a
recursive type because `related` holds other `LegalResource` objects. -/
inductive LegalResource where
  | mk (identifier : Option String) (dct_identifier : Option String)
       (types : List ResourceType) (description : Option LangDict)
       (references : List String) (related : List LegalResource)

def LegalResource.identifier : LegalResource → Option String
  | .mk i _ _ _ _ _ => i

def LegalResource.dct_identifier : LegalResource → Option String
  | .mk _ d _ _ _ _ => d

def LegalResource.types : LegalResource → List ResourceType
  | .mk _ _ t _ _ _ => t

def LegalResource.description : LegalResource → Option LangDict
  | .mk _ _ _ d _ _ => d

def LegalResource.references : LegalResource → List String
  | .mk _ _ _ _ r _ => r

def LegalResource.related : LegalResource → List LegalResource
  | .mk _ _ _ _ _ r => r

/-- Replace the stored `_identifier` slot of a `LegalResource`. -/
def LegalResource.withIdentifier : LegalResource → Option String → LegalResource
  | .mk _ d t ds r rl, i => .mk i d t ds r rl

@[simp] lemma LegalResource.identifier_mk (i d : Option String) (t : List ResourceType)
    (ds : Option LangDict) (r : List String) (rl : List LegalResource) :
    (LegalResource.mk i d t ds r rl).identifier = i := rfl

@[simp] lemma LegalResource.dct_identifier_mk (i d : Option String) (t : List ResourceType)
    (ds : Option LangDict) (r : List String) (rl : List LegalResource) :
    (LegalResource.mk i d t ds r rl).dct_identifier = d := rfl

@[simp] lemma LegalResource.types_mk (i d : Option String) (t : List ResourceType)
    (ds : Option LangDict) (r : List String) (rl : List LegalResource) :
    (LegalResource.mk i d t ds r rl).types = t := rfl

@[simp] lemma LegalResource.description_mk (i d : Option String) (t : List ResourceType)
    (ds : Option LangDict) (r : List String) (rl : List LegalResource) :
    (LegalResource.mk i d t ds r rl).description = ds := rfl

@[simp] lemma LegalResource.references_mk (i d : Option String) (t : List ResourceType)
    (ds : Option LangDict) (r : List String) (rl : List LegalResource) :
    (LegalResource.mk i d t ds r rl).references = r := rfl

@[simp] lemma LegalResource.related_mk (i d : Option String) (t : List ResourceType)
    (ds : Option LangDict) (r : List String) (rl : List LegalResource) :
    (LegalResource.mk i d t ds r rl).related = rl := rfl

/-- `rule.Rule` (`cpsv:Rule`). -/
structure Rule where
  identifier : Option String
  dct_identifier : Option String
  title : Option LangDict
  description : Option LangDict
  implements : List LegalResource
  languages : List String
  types : List String

/-- `datacatalogtordf.Location`, an external value object; only its
(optionally set) identifier is read by this library. -/
structure Location where
  identifier : Option String
deriving Repr

/-- `public_organization.PublicOrganization` (`cv:PublicOrganization`). -/
structure PublicOrganization where
  identifier : Option String
  spatial_coverage : Option Location
  pref_label : Option LangDict
  dct_identifier : Option String
  title : Option LangDict
deriving Repr

/-- `evidence.Evidence` (`cpsv:Evidence`). -/
structure Evidence where
  identifier : Option String
  dct_identifier : Option String
  name : Option LangDict
  description : Option LangDict
  type : Option String
  related_documentation : List String
  languages : List String
deriving Repr

/-- `event.Event` (`cpsv:Event`). -/
structure Event where
  identifier : Option String
  dct_identifier : Option String
  name : Option LangDict
  description : Option LangDict
  type : Option String
  related_service : List String
deriving Repr

/-- `criterion_requirement.CriterionRequirement` (`cv:CriterionRequirement`). -/
structure CriterionRequirement where
  identifier : Option String
  dct_identifier : Option String
  title : Option LangDict
  types : List String
deriving Repr

/-- `service.Service` (`cpsv:PublicService`).  Unlike every other
entity kind, `Service.__init__` takes a required `identifier: str` and
its setter assigns `URI(identifier)` unconditionally, so a constructed
`Service` always carries an identifier (`service.py` lines 80-95); the
module does not import the skolemizer.  The slots are exactly
`Service.__slots__` (`service.py` lines 53-65): note there is no
`has_criterion` slot. -/
structure Service where
  identifier : String
  title : Option LangDict
  description : Option LangDict
  dct_identifier : Option String
  has_competent_authority : Option PublicOrganization
  follows : List Rule
  has_legal_resources : List LegalResource
  processing_time : Option String
  has_input : List Evidence
  is_grouped_by : List Event

/-- `Rule.__init__(identifier=None)`: the identifier goes through the
guarded setter, list attributes start empty, the other slots unset. -/
def Rule.init (identifier : Option String) : Rule :=
  { identifier := setIdentifierSlot none identifier
    dct_identifier := none, title := none, description := none
    implements := [], languages := [], types := [] }

/-- `LegalResource.__init__(identifier=None)`. -/
def LegalResource.init (identifier : Option String) : LegalResource :=
  .mk (setIdentifierSlot none identifier) none [] none [] []

/-- `ResourceType.__init__(identifier=None)`. -/
def ResourceType.init (identifier : Option String) : ResourceType :=
  { identifier := setIdentifierSlot none identifier }

/-- `PublicOrganization.__init__(identifier=None)`: only the identifier
slot is touched; every other slot stays unset. -/
def PublicOrganization.init (identifier : Option String) : PublicOrganization :=
  { identifier := setIdentifierSlot none identifier
    spatial_coverage := none, pref_label := none
    dct_identifier := none, title := none }

/-- `Evidence.__init__(identifier=None)`. -/
def Evidence.init (identifier : Option String) : Evidence :=
  { identifier := setIdentifierSlot none identifier
    dct_identifier := none, name := none, description := none
    type := none, related_documentation := [], languages := [] }

/-- `Event.__init__(identifier=None)`. -/
def Event.init (identifier : Option String) : Event :=
  { identifier := setIdentifierSlot none identifier
    dct_identifier := none, name := none, description := none
    type := none, related_service := [] }

/-- `CriterionRequirement.__init__(identifier=None)`:
`if identifier: self.identifier = identifier`, then `types = []`. -/
def CriterionRequirement.init (identifier : Option String) : CriterionRequirement :=
  { identifier := setIdentifierSlot none identifier
    dct_identifier := none, title := none, types := [] }

/-- `Service.__init__(identifier)`: the identifier parameter is required
and is passed to `URI(...)` unconditionally, so constructing a Service
without a usable identifier raises instead of deferring to
skolemization. -/
def Service.init (identifier : Option String) : Except String Service :=
  (URI.make identifier).map (fun u =>
    { identifier := u, title := none, description := none
      dct_identifier := none, has_competent_authority := none
      follows := [], has_legal_resources := [], processing_time := none
      has_input := [], is_grouped_by := [] })

/-- The `identifier` property setter of `Rule`. -/
def Rule.setIdentifier (r : Rule) (v : Option String) : Rule :=
  { r with identifier := setIdentifierSlot r.identifier v }

/-- The `identifier` property setter of `LegalResource`. -/
def LegalResource.setIdentifier (l : LegalResource) (v : Option String) : LegalResource :=
  l.withIdentifier (setIdentifierSlot l.identifier v)

/-- The `identifier` property setter of `ResourceType`. -/
def ResourceType.setIdentifier (r : ResourceType) (v : Option String) : ResourceType :=
  { r with identifier := setIdentifierSlot r.identifier v }

/-- The `identifier` property setter of `PublicOrganization`. -/
def PublicOrganization.setIdentifier (p : PublicOrganization) (v : Option String) :
    PublicOrganization :=
  { p with identifier := setIdentifierSlot p.identifier v }

/-- The `identifier` property setter of `Evidence`. -/
def Evidence.setIdentifier (e : Evidence) (v : Option String) : Evidence :=
  { e with identifier := setIdentifierSlot e.identifier v }

/-- The `identifier` property setter of `Event`. -/
def Event.setIdentifier (e : Event) (v : Option String) : Event :=
  { e with identifier := setIdentifierSlot e.identifier v }

/-- The `identifier` property setter of `CriterionRequirement`. -/
def CriterionRequirement.setIdentifier (c : CriterionRequirement) (v : Option String) :
    CriterionRequirement :=
  { c with identifier := setIdentifierSlot c.identifier v }

/-- The sequence of `add` calls of `Rule._to_graph` after the identifier
has been resolved to `subj`: the type triple then the per-attribute
emission rules, in source order (`rule.py` lines 176-183). -/
def Rule.rawGraph (r : Rule) (subj : String) : Except String (List Triple) := do
  let implT ← refListSeg subj (cpsv "implements") (fun lr => getSlot lr.identifier) r.implements
  .ok ([⟨subj, rdfType, Obj.uri (cpsv "Rule")⟩]
    ++ langSeg subj (dct "title") r.title
    ++ plainLitSeg subj (dct "identifier") r.dct_identifier
    ++ langSeg subj (dct "description") r.description
    ++ implT
    ++ uriListSeg subj (dct "language") r.languages
    ++ uriListSeg subj (dct "type") r.types)

/-- `Rule._to_graph`: skolemize the identifier if unset, then build a
fresh graph.  The skolem URI the external skolemizer would mint is
determined by `baseurl` and `token`. -/
def Rule.toGraph (r : Rule) (baseurl token : String) :
    Except String (Rule × List Triple) :=
  let r1 := { r with identifier := resolveIdentifier r.identifier baseurl token }
  match r1.identifier with
  | none => .error "AttributeError"
  | some subj => (r1.rawGraph subj).map (fun L => (r1, Graph.ofList L))

/-- The `add` calls of `LegalResource._to_graph` after identifier
resolution (`legal_resource.py` lines 190-196): type triple, `types`
(via each nested `ResourceType.identifier`), `dct_identifier`,
`description`, `references`, `related`. -/
def LegalResource.rawGraph (l : LegalResource) (subj : String) :
    Except String (List Triple) := do
  let typesT ← refListSeg subj (dct "type") (fun rt => getSlot rt.identifier) l.types
  let relatedT ← refListSeg subj (dct "relation") (fun lr => getSlot lr.identifier) l.related
  .ok ([⟨subj, rdfType, Obj.uri (eli "LegalResource")⟩]
    ++ typesT
    ++ plainLitSeg subj (dct "identifier") l.dct_identifier
    ++ langSeg subj (dct "description") l.description
    ++ uriListSeg subj (rdfs "seeAlso") l.references
    ++ relatedT)

/-- `LegalResource._to_graph`. -/
def LegalResource.toGraph (l : LegalResource) (baseurl token : String) :
    Except String (LegalResource × List Triple) :=
  let l1 := l.withIdentifier (resolveIdentifier l.identifier baseurl token)
  match l1.identifier with
  | none => .error "AttributeError"
  | some subj => (l1.rawGraph subj).map (fun L => (l1, Graph.ofList L))

/-- The `add` calls of `Evidence._to_graph` after identifier resolution
(`evidence.py` lines 176-183).  Note `_dct_identifier_to_graph` emits a
plain `Literal(self.dct_identifier)` with no datatype. -/
def Evidence.rawGraph (e : Evidence) (subj : String) : List Triple :=
  [⟨subj, rdfType, Obj.uri (cpsv "Evidence")⟩]
    ++ plainLitSeg subj (dct "identifier") e.dct_identifier
    ++ langSeg subj (dct "title") e.name
    ++ langSeg subj (dct "description") e.description
    ++ uriOptSeg subj (dct "type") e.type
    ++ uriListSeg subj (foaf "page") e.related_documentation
    ++ uriListSeg subj (dct "language") e.languages

/-- `Evidence._to_graph`. -/
def Evidence.toGraph (e : Evidence) (baseurl token : String) :
    Except String (Evidence × List Triple) :=
  let e1 := { e with identifier := resolveIdentifier e.identifier baseurl token }
  match e1.identifier with
  | none => .error "AttributeError"
  | some subj => .ok (e1, Graph.ofList (e1.rawGraph subj))

/-- The `add` calls of `Event._to_graph` after identifier resolution
(`event.py` lines 162-168). -/
def Event.rawGraph (e : Event) (subj : String) : List Triple :=
  [⟨subj, rdfType, Obj.uri (cpsv "Event")⟩]
    ++ plainLitSeg subj (dct "identifier") e.dct_identifier
    ++ langSeg subj (dct "title") e.name
    ++ langSeg subj (dct "description") e.description
    ++ uriOptSeg subj (dct "type") e.type
    ++ uriListSeg subj (dct "relation") e.related_service

/-- `Event._to_graph`. -/
def Event.toGraph (e : Event) (baseurl token : String) :
    Except String (Event × List Triple) :=
  let e1 := { e with identifier := resolveIdentifier e.identifier baseurl token }
  match e1.identifier with
  | none => .error "AttributeError"
  | some subj => .ok (e1, Graph.ofList (e1.rawGraph subj))

/-- The `add` calls of `PublicOrganization._to_graph` after identifier
resolution (`public_organization.py` lines 151-156). -/
def PublicOrganization.rawGraph (p : PublicOrganization) (subj : String) :
    Except String (List Triple) := do
  let spatialT ← refOptSeg subj (dct "spatial") (fun loc => getSlot loc.identifier)
    p.spatial_coverage
  .ok ([⟨subj, rdfType, Obj.uri (cv "PublicOrganization")⟩]
    ++ langSeg subj (dct "title") p.title
    ++ plainLitSeg subj (dct "identifier") p.dct_identifier
    ++ langSeg subj (skos "prefLabel") p.pref_label
    ++ spatialT)

/-- `PublicOrganization._to_graph`. -/
def PublicOrganization.toGraph (p : PublicOrganization) (baseurl token : String) :
    Except String (PublicOrganization × List Triple) :=
  let p1 := { p with identifier := resolveIdentifier p.identifier baseurl token }
  match p1.identifier with
  | none => .error "AttributeError"
  | some subj => (p1.rawGraph subj).map (fun L => (p1, Graph.ofList L))

/-- The `add` calls of `CriterionRequirement._to_graph` after identifier
resolution (`criterion_requirement.py` lines 138-143): type triple,
title, `dct_identifier` as an `xsd:anyURI`-typed literal, then the
title rule is invoked a second time, then `types`. -/
def CriterionRequirement.rawGraph (c : CriterionRequirement) (subj : String) : List Triple :=
  [⟨subj, rdfType, Obj.uri (cv "CriterionRequirement")⟩]
    ++ langSeg subj (dct "title") c.title
    ++ typedLitSeg subj (dct "identifier") (xsd "anyURI") c.dct_identifier
    ++ langSeg subj (dct "title") c.title
    ++ uriListSeg subj (dct "type") c.types

/-- `CriterionRequirement._to_graph`. -/
def CriterionRequirement.toGraph (c : CriterionRequirement) (baseurl token : String) :
    Except String (CriterionRequirement × List Triple) :=
  let c1 := { c with identifier := resolveIdentifier c.identifier baseurl token }
  match c1.identifier with
  | none => .error "AttributeError"
  | some subj => .ok (c1, Graph.ofList (c1.rawGraph subj))

/-- `Service._to_graph` (`service.py` lines 205-227): no skolemization
preamble (the identifier is always set at construction) and no
`has_criterion` rule; emission order is title, description,
`dct_identifier` (plain literal), `has_competent_authority`, `follows`,
`has_legal_resources`, `processing_time` (`xsd:duration`), `has_input`,
`is_grouped_by`.  Referenced entities' identifiers are read directly,
so an unset one raises. -/
def Service.toGraph (s : Service) : Except String (List Triple) := do
  let authT ← refOptSeg s.identifier (cv "hasCompetentAuthority")
    (fun o => getSlot o.identifier) s.has_competent_authority
  let followsT ← refListSeg s.identifier (cpsv "follows")
    (fun r => getSlot r.identifier) s.follows
  let legalT ← refListSeg s.identifier (cv "hasLegalResource")
    (fun l => getSlot l.identifier) s.has_legal_resources
  let inputT ← refListSeg s.identifier (cpsv "hasInput")
    (fun e => getSlot e.identifier) s.has_input
  let groupT ← refListSeg s.identifier (cv "isGroupedBy")
    (fun e => getSlot e.identifier) s.is_grouped_by
  .ok (Graph.ofList ([⟨s.identifier, rdfType, Obj.uri (cpsv "PublicService")⟩]
    ++ langSeg s.identifier (dct "title") s.title
    ++ langSeg s.identifier (dct "description") s.description
    ++ plainLitSeg s.identifier (dct "identifier") s.dct_identifier
    ++ authT
    ++ followsT
    ++ legalT
    ++ typedLitSeg s.identifier (cv "processingTime") (xsd "duration") s.processing_time
    ++ inputT
    ++ groupT))

/-! Lemma toolkit about the graph model, the emission segments and the
identifier resolution. -/

lemma Graph.mem_add {g : List Triple} {t a : Triple} :
    a ∈ Graph.add g t ↔ a ∈ g ∨ a = t := by
  unfold Graph.add
  split
  · next h =>
    constructor
    · exact Or.inl
    · rintro (h' | rfl)
      · exact h'
      · exact h
  · simp

lemma Graph.nodup_add {g : List Triple} {t : Triple} (h : g.Nodup) :
    (Graph.add g t).Nodup := by
  unfold Graph.add
  split
  · exact h
  · next hmem =>
    rw [List.nodup_append]
    refine ⟨h, List.nodup_singleton t, ?_⟩
    intro a ha hb
    rw [List.mem_singleton] at hb
    exact hmem (hb ▸ ha)

lemma Graph.mem_foldl_add (L : List Triple) :
    ∀ g a, a ∈ L.foldl Graph.add g ↔ a ∈ g ∨ a ∈ L := by
  induction L with
  | nil => simp
  | cons t L ih =>
    intro g a
    rw [List.foldl_cons, ih, Graph.mem_add, List.mem_cons]
    tauto

lemma Graph.mem_ofList {L : List Triple} {a : Triple} :
    a ∈ Graph.ofList L ↔ a ∈ L := by
  unfold Graph.ofList
  rw [Graph.mem_foldl_add]
  simp

lemma Graph.nodup_foldl_add (L : List Triple) :
    ∀ g : List Triple, g.Nodup → (L.foldl Graph.add g).Nodup := by
  induction L with
  | nil => intro g h; exact h
  | cons t L ih => intro g h; exact ih _ (Graph.nodup_add h)

lemma Graph.nodup_ofList (L : List Triple) : (Graph.ofList L).Nodup :=
  Graph.nodup_foldl_add L [] List.nodup_nil

/-- The number of triples of a built graph matching a predicate is the
number of distinct matching triples among the `add` calls. -/
lemma Graph.length_filter_ofList (L : List Triple) (p : Triple → Bool) :
    ((Graph.ofList L).filter p).length = ((L.filter p).toFinset).card := by
  have h2 : ((Graph.ofList L).filter p).Nodup := (Graph.nodup_ofList L).filter p
  rw [← List.toFinset_card_of_nodup h2]
  congr 1
  ext t
  simp [List.mem_filter, Graph.mem_ofList]

lemma truthyStr_none : truthyStr none = false := rfl

lemma truthyStr_some_iff {s : String} : truthyStr (some s) = true ↔ s ≠ "" := by
  simp [truthyStr]

lemma truthyStr_some_false_iff {s : String} : truthyStr (some s) = false ↔ s = "" := by
  simp [truthyStr]

lemma Skolemizer.addSkolemization_ne_empty (baseurl token : String) :
    Skolemizer.addSkolemization baseurl token ≠ "" := by
  intro h
  have h2 : (Skolemizer.addSkolemization baseurl token).length = 0 := by
    rw [h]
    rfl
  unfold Skolemizer.addSkolemization at h2
  rw [String.length_append, String.length_append] at h2
  have h3 : ("/.well-known/skolem/").length = 20 := rfl
  rw [h3] at h2
  omega

lemma resolveIdentifier_of_truthy {old : Option String} (baseurl token : String)
    (h : truthyStr old = true) : resolveIdentifier old baseurl token = old := by
  simp [resolveIdentifier, h]

lemma resolveIdentifier_of_not_truthy {old : Option String} (baseurl token : String)
    (h : truthyStr old = false) :
    resolveIdentifier old baseurl token = some (Skolemizer.addSkolemization baseurl token) := by
  have hT : truthyStr (some (Skolemizer.addSkolemization baseurl token)) = true :=
    truthyStr_some_iff.mpr (Skolemizer.addSkolemization_ne_empty baseurl token)
  simp [resolveIdentifier, h, setIdentifierSlot, hT]

/-- Whatever was stored, the resolved identifier is a set, truthy slot. -/
lemma resolveIdentifier_truthy (old : Option String) (baseurl token : String) :
    truthyStr (resolveIdentifier old baseurl token) = true := by
  by_cases h : truthyStr old = true
  · rw [resolveIdentifier_of_truthy _ _ h]; exact h
  · rw [resolveIdentifier_of_not_truthy _ _ (by simpa using h)]
    exact truthyStr_some_iff.mpr (Skolemizer.addSkolemization_ne_empty baseurl token)

/-- A resolved identifier stays unchanged by a later resolution (with any
other skolem URI): identifier stability. -/
lemma resolveIdentifier_idem (old : Option String) (b t b' t' : String) :
    resolveIdentifier (resolveIdentifier old b t) b' t' = resolveIdentifier old b t :=
  resolveIdentifier_of_truthy _ _ (resolveIdentifier_truthy old b t)

lemma langSeg_some (subj pred : String) (m : LangDict) :
    langSeg subj pred (some m) =
      m.map (fun kv => ⟨subj, pred, Obj.langLit kv.2 kv.1⟩) := by
  show (if m.isEmpty then [] else _) = _
  by_cases h : m.isEmpty
  · rw [if_pos h, List.isEmpty_iff.mp h]
    rfl
  · rw [if_neg h]

lemma langSeg_of_not_truthy {d : Option LangDict} (subj pred : String)
    (h : truthyDict d = false) : langSeg subj pred d = [] := by
  cases d with
  | none => rfl
  | some m =>
    simp only [truthyDict, Bool.not_eq_false'] at h
    rw [langSeg_some, List.isEmpty_iff.mp h]
    rfl

lemma plainLitSeg_of_not_truthy {v : Option String} (subj pred : String)
    (h : truthyStr v = false) : plainLitSeg subj pred v = [] := by
  cases v with
  | none => rfl
  | some s =>
    rw [truthyStr_some_false_iff] at h
    simp [plainLitSeg, h]

lemma typedLitSeg_of_not_truthy {v : Option String} (subj pred dt : String)
    (h : truthyStr v = false) : typedLitSeg subj pred dt v = [] := by
  cases v with
  | none => rfl
  | some s =>
    rw [truthyStr_some_false_iff] at h
    simp [typedLitSeg, h]

lemma uriOptSeg_of_not_truthy {v : Option String} (subj pred : String)
    (h : truthyStr v = false) : uriOptSeg subj pred v = [] := by
  cases v with
  | none => rfl
  | some s =>
    rw [truthyStr_some_false_iff] at h
    simp [uriOptSeg, h]

lemma uriListSeg_eq_map (subj pred : String) (xs : List String) :
    uriListSeg subj pred xs = xs.map (fun u => ⟨subj, pred, Obj.uri u⟩) := by
  unfold uriListSeg
  by_cases h : xs.isEmpty
  · rw [if_pos h, List.isEmpty_iff.mp h]
    rfl
  · rw [if_neg h]

lemma except_bind_ok {α β : Type} {x : Except String α} {f : α → Except String β} {b : β} :
    (x >>= f) = .ok b ↔ ∃ a, x = .ok a ∧ f a = .ok b := by
  cases x <;> simp [Bind.bind, Except.bind]

lemma except_map_ok {α β : Type} {x : Except String α} {f : α → β} {b : β} :
    (Except.map f x) = .ok b ↔ ∃ a, x = .ok a ∧ f a = b := by
  cases x <;> simp [Except.map]

lemma refListSeg_nil {α : Type} (subj pred : String) (getId : α → Except String String) :
    refListSeg subj pred getId [] = .ok [] := rfl

lemma refListSeg_cons {α : Type} (subj pred : String) (getId : α → Except String String)
    (x : α) (xs : List α) :
    refListSeg subj pred getId (x :: xs) =
      (getId x).bind (fun u => (refListSeg subj pred getId xs).bind
        (fun rest => .ok (⟨subj, pred, Obj.uri u⟩ :: rest))) := by
  rfl

/-- Membership in a successfully built reference-list segment: exactly
the link triples to the referenced identifiers. -/
lemma refListSeg_ok_mem {α : Type} {subj pred : String} {getId : α → Except String String}
    {xs : List α} {L : List Triple} (h : refListSeg subj pred getId xs = .ok L) (t : Triple) :
    t ∈ L ↔ ∃ x ∈ xs, ∃ u, getId x = .ok u ∧ t = ⟨subj, pred, Obj.uri u⟩ := by
  induction xs generalizing L with
  | nil =>
    rw [refListSeg_nil] at h
    cases h
    simp
  | cons x xs ih =>
    rw [refListSeg_cons] at h
    cases hx : getId x with
    | error e => rw [hx] at h; cases h
    | ok u =>
      rw [hx] at h
      cases hrest : refListSeg subj pred getId xs with
      | error e => rw [hrest] at h; cases h
      | ok rest =>
        rw [hrest] at h
        simp only [Except.bind] at h
        cases h
        constructor
        · intro ht
          rcases List.mem_cons.mp ht with rfl | ht
          · exact ⟨x, List.mem_cons_self x xs, u, hx, rfl⟩
          · rcases (ih hrest).mp ht with ⟨y, hy, v, hv, rfl⟩
            exact ⟨y, List.mem_cons_of_mem x hy, v, hv, rfl⟩
        · rintro ⟨y, hy, v, hv, rfl⟩
          rcases List.mem_cons.mp hy with rfl | hy
          · rw [hv] at hx
            cases hx
            exact List.mem_cons_self _ _
          · exact List.mem_cons_of_mem _ ((ih hrest).mpr ⟨y, hy, v, hv, rfl⟩)

/-- A reference-list segment built from per-element identifiers. -/
lemma refListSeg_ok_of_forall {α : Type} {subj pred : String}
    {getId : α → Except String String} {xs : List α} {f : α → String}
    (h : ∀ x ∈ xs, getId x = .ok (f x)) :
    refListSeg subj pred getId xs = .ok (xs.map (fun x => ⟨subj, pred, Obj.uri (f x)⟩)) := by
  induction xs with
  | nil => rfl
  | cons x xs ih =>
    rw [refListSeg_cons, h x (List.mem_cons_self x xs),
      ih (fun y hy => h y (List.mem_cons_of_mem x hy))]
    rfl

lemma truthy_exists {o : Option String} (h : truthyStr o = true) :
    ∃ s, o = some s ∧ s ≠ "" := by
  cases o with
  | none => cases h
  | some s => exact ⟨s, rfl, truthyStr_some_iff.mp h⟩

lemma resolveIdentifier_ne_empty {old : Option String} {b t s : String}
    (h : resolveIdentifier old b t = some s) : s ≠ "" := by
  have h1 := resolveIdentifier_truthy old b t
  rw [h] at h1
  exact truthyStr_some_iff.mp h1

@[simp] lemma LegalResource.identifier_withIdentifier (l : LegalResource) (i : Option String) :
    (l.withIdentifier i).identifier = i := by
  cases l
  rfl

@[simp] lemma LegalResource.dct_identifier_withIdentifier (l : LegalResource) (i : Option String) :
    (l.withIdentifier i).dct_identifier = l.dct_identifier := by
  cases l
  rfl

@[simp] lemma LegalResource.types_withIdentifier (l : LegalResource) (i : Option String) :
    (l.withIdentifier i).types = l.types := by
  cases l
  rfl

@[simp] lemma LegalResource.description_withIdentifier (l : LegalResource) (i : Option String) :
    (l.withIdentifier i).description = l.description := by
  cases l
  rfl

@[simp] lemma LegalResource.references_withIdentifier (l : LegalResource) (i : Option String) :
    (l.withIdentifier i).references = l.references := by
  cases l
  rfl

@[simp] lemma LegalResource.related_withIdentifier (l : LegalResource) (i : Option String) :
    (l.withIdentifier i).related = l.related := by
  cases l
  rfl

@[simp] lemma LegalResource.withIdentifier_withIdentifier (l : LegalResource)
    (i j : Option String) : (l.withIdentifier i).withIdentifier j = l.withIdentifier j := by
  cases l
  rfl

/-- Inversion of a successful `Rule._to_graph` call. -/
lemma rule_toGraph_ok_iff {r : Rule} {b t : String} {r' : Rule} {g : List Triple} :
    Rule.toGraph r b t = .ok (r', g) ↔
      ∃ subj L, resolveIdentifier r.identifier b t = some subj ∧
        r' = { r with identifier := some subj } ∧
        Rule.rawGraph r' subj = .ok L ∧ g = Graph.ofList L := by
  unfold Rule.toGraph
  rcases truthy_exists (resolveIdentifier_truthy r.identifier b t) with ⟨s, hs, _⟩
  rw [hs]
  simp only [hs, except_map_ok]
  constructor
  · rintro ⟨L, hL, hpair⟩
    cases hpair
    exact ⟨s, L, rfl, rfl, hL, rfl⟩
  · rintro ⟨subj, L, hsubj, rfl, hL, rfl⟩
    cases hsubj
    exact ⟨L, hL, rfl⟩

/-- Inversion of a successful `LegalResource._to_graph` call. -/
lemma legalResource_toGraph_ok_iff {l : LegalResource} {b t : String} {l' : LegalResource}
    {g : List Triple} :
    LegalResource.toGraph l b t = .ok (l', g) ↔
      ∃ subj L, resolveIdentifier l.identifier b t = some subj ∧
        l' = l.withIdentifier (some subj) ∧
        LegalResource.rawGraph l' subj = .ok L ∧ g = Graph.ofList L := by
  unfold LegalResource.toGraph
  rcases truthy_exists (resolveIdentifier_truthy l.identifier b t) with ⟨s, hs, _⟩
  rw [hs]
  simp only [hs, LegalResource.identifier_withIdentifier, except_map_ok]
  constructor
  · rintro ⟨L, hL, hpair⟩
    cases hpair
    exact ⟨s, L, rfl, rfl, hL, rfl⟩
  · rintro ⟨subj, L, hsubj, rfl, hL, rfl⟩
    cases hsubj
    exact ⟨L, hL, rfl⟩

/-- Inversion of a successful `Evidence._to_graph` call. -/
lemma evidence_toGraph_ok_iff {e : Evidence} {b t : String} {e' : Evidence}
    {g : List Triple} :
    Evidence.toGraph e b t = .ok (e', g) ↔
      ∃ subj, resolveIdentifier e.identifier b t = some subj ∧
        e' = { e with identifier := some subj } ∧
        g = Graph.ofList (Evidence.rawGraph e' subj) := by
  unfold Evidence.toGraph
  rcases truthy_exists (resolveIdentifier_truthy e.identifier b t) with ⟨s, hs, _⟩
  rw [hs]
  simp only [hs, Except.ok.injEq, Prod.mk.injEq]
  constructor
  · rintro ⟨rfl, rfl⟩
    exact ⟨s, rfl, rfl, rfl⟩
  · rintro ⟨subj, hsubj, rfl, rfl⟩
    cases hsubj
    exact ⟨rfl, rfl⟩

/-- Inversion of a successful `Event._to_graph` call. -/
lemma event_toGraph_ok_iff {e : Event} {b t : String} {e' : Event}
    {g : List Triple} :
    Event.toGraph e b t = .ok (e', g) ↔
      ∃ subj, resolveIdentifier e.identifier b t = some subj ∧
        e' = { e with identifier := some subj } ∧
        g = Graph.ofList (Event.rawGraph e' subj) := by
  unfold Event.toGraph
  rcases truthy_exists (resolveIdentifier_truthy e.identifier b t) with ⟨s, hs, _⟩
  rw [hs]
  simp only [hs, Except.ok.injEq, Prod.mk.injEq]
  constructor
  · rintro ⟨rfl, rfl⟩
    exact ⟨s, rfl, rfl, rfl⟩
  · rintro ⟨subj, hsubj, rfl, rfl⟩
    cases hsubj
    exact ⟨rfl, rfl⟩

/-- Inversion of a successful `CriterionRequirement._to_graph` call. -/
lemma criterionRequirement_toGraph_ok_iff {c : CriterionRequirement} {b t : String}
    {c' : CriterionRequirement} {g : List Triple} :
    CriterionRequirement.toGraph c b t = .ok (c', g) ↔
      ∃ subj, resolveIdentifier c.identifier b t = some subj ∧
        c' = { c with identifier := some subj } ∧
        g = Graph.ofList (CriterionRequirement.rawGraph c' subj) := by
  unfold CriterionRequirement.toGraph
  rcases truthy_exists (resolveIdentifier_truthy c.identifier b t) with ⟨s, hs, _⟩
  rw [hs]
  simp only [hs, Except.ok.injEq, Prod.mk.injEq]
  constructor
  · rintro ⟨rfl, rfl⟩
    exact ⟨s, rfl, rfl, rfl⟩
  · rintro ⟨subj, hsubj, rfl, rfl⟩
    cases hsubj
    exact ⟨rfl, rfl⟩

/-- Inversion of a successful `PublicOrganization._to_graph` call. -/
lemma publicOrganization_toGraph_ok_iff {p : PublicOrganization} {b t : String}
    {p' : PublicOrganization} {g : List Triple} :
    PublicOrganization.toGraph p b t = .ok (p', g) ↔
      ∃ subj L, resolveIdentifier p.identifier b t = some subj ∧
        p' = { p with identifier := some subj } ∧
        PublicOrganization.rawGraph p' subj = .ok L ∧ g = Graph.ofList L := by
  unfold PublicOrganization.toGraph
  rcases truthy_exists (resolveIdentifier_truthy p.identifier b t) with ⟨s, hs, _⟩
  rw [hs]
  simp only [hs, except_map_ok]
  constructor
  · rintro ⟨L, hL, hpair⟩
    cases hpair
    exact ⟨s, L, rfl, rfl, hL, rfl⟩
  · rintro ⟨subj, L, hsubj, rfl, hL, rfl⟩
    cases hsubj
    exact ⟨L, hL, rfl⟩

lemma mem_langSeg {subj pred : String} {d : Option LangDict} {t : Triple} :
    t ∈ langSeg subj pred d ↔
      ∃ m, d = some m ∧ ∃ kv ∈ m, t = ⟨subj, pred, Obj.langLit kv.2 kv.1⟩ := by
  cases d with
  | none => simp [langSeg]
  | some m =>
    rw [langSeg_some]
    simp only [List.mem_map, Option.some.injEq]
    constructor
    · rintro ⟨kv, hkv, rfl⟩
      exact ⟨m, rfl, kv, hkv, rfl⟩
    · rintro ⟨m', rfl, kv, hkv, rfl⟩
      exact ⟨kv, hkv, rfl⟩

lemma mem_plainLitSeg {subj pred : String} {v : Option String} {t : Triple} :
    t ∈ plainLitSeg subj pred v ↔
      ∃ s, v = some s ∧ s ≠ "" ∧ t = ⟨subj, pred, Obj.lit s⟩ := by
  cases v with
  | none => simp [plainLitSeg]
  | some s =>
    by_cases h : s = "" <;> simp [plainLitSeg, h]

lemma mem_typedLitSeg {subj pred dt : String} {v : Option String} {t : Triple} :
    t ∈ typedLitSeg subj pred dt v ↔
      ∃ s, v = some s ∧ s ≠ "" ∧ t = ⟨subj, pred, Obj.typedLit s dt⟩ := by
  cases v with
  | none => simp [typedLitSeg]
  | some s =>
    by_cases h : s = "" <;> simp [typedLitSeg, h]

lemma mem_uriOptSeg {subj pred : String} {v : Option String} {t : Triple} :
    t ∈ uriOptSeg subj pred v ↔
      ∃ s, v = some s ∧ s ≠ "" ∧ t = ⟨subj, pred, Obj.uri s⟩ := by
  cases v with
  | none => simp [uriOptSeg]
  | some s =>
    by_cases h : s = "" <;> simp [uriOptSeg, h]

lemma mem_uriListSeg {subj pred : String} {xs : List String} {t : Triple} :
    t ∈ uriListSeg subj pred xs ↔ ∃ u ∈ xs, t = ⟨subj, pred, Obj.uri u⟩ := by
  rw [uriListSeg_eq_map]
  simp only [List.mem_map]
  constructor
  · rintro ⟨u, hu, rfl⟩
    exact ⟨u, hu, rfl⟩
  · rintro ⟨u, hu, rfl⟩
    exact ⟨u, hu, rfl⟩

lemma refOptSeg_ok_mem {α : Type} {subj pred : String} {getId : α → Except String String}
    {o : Option α} {L : List Triple} (h : refOptSeg subj pred getId o = .ok L) (t : Triple) :
    t ∈ L ↔ ∃ a, o = some a ∧ ∃ u, getId a = .ok u ∧ t = ⟨subj, pred, Obj.uri u⟩ := by
  cases o with
  | none =>
    cases h
    simp
  | some a =>
    simp only [refOptSeg, except_map_ok] at h
    rcases h with ⟨u, hu, rfl⟩
    simp only [List.mem_singleton, Option.some.injEq]
    constructor
    · rintro rfl
      exact ⟨a, rfl, u, hu, rfl⟩
    · rintro ⟨a', rfl, u', hu', rfl⟩
      rw [hu'] at hu
      cases hu
      rfl

/-- Re-serializing a `Rule` without mutating it yields the same entity
state and the identical graph, whatever skolem URI would be minted the
second time. -/
lemma rule_toGraph_stable {r : Rule} {b t b' t' : String} {r' : Rule} {g : List Triple}
    (h : Rule.toGraph r b t = .ok (r', g)) : Rule.toGraph r' b' t' = .ok (r', g) := by
  rcases rule_toGraph_ok_iff.mp h with ⟨subj, L, hres, rfl, hL, rfl⟩
  refine rule_toGraph_ok_iff.mpr ⟨subj, L, ?_, rfl, hL, rfl⟩
  exact resolveIdentifier_of_truthy _ _
    (truthyStr_some_iff.mpr (resolveIdentifier_ne_empty hres))

/-- Re-serializing a `LegalResource` without mutation is stable. -/
lemma legalResource_toGraph_stable {l : LegalResource} {b t b' t' : String}
    {l' : LegalResource} {g : List Triple}
    (h : LegalResource.toGraph l b t = .ok (l', g)) :
    LegalResource.toGraph l' b' t' = .ok (l', g) := by
  rcases legalResource_toGraph_ok_iff.mp h with ⟨subj, L, hres, rfl, hL, rfl⟩
  refine legalResource_toGraph_ok_iff.mpr ⟨subj, L, ?_, by simp, hL, rfl⟩
  rw [LegalResource.identifier_withIdentifier]
  exact resolveIdentifier_of_truthy _ _
    (truthyStr_some_iff.mpr (resolveIdentifier_ne_empty hres))

/-- Re-serializing an `Evidence` without mutation is stable. -/
lemma evidence_toGraph_stable {e : Evidence} {b t b' t' : String} {e' : Evidence}
    {g : List Triple} (h : Evidence.toGraph e b t = .ok (e', g)) :
    Evidence.toGraph e' b' t' = .ok (e', g) := by
  rcases evidence_toGraph_ok_iff.mp h with ⟨subj, hres, rfl, rfl⟩
  refine evidence_toGraph_ok_iff.mpr ⟨subj, ?_, rfl, rfl⟩
  exact resolveIdentifier_of_truthy _ _
    (truthyStr_some_iff.mpr (resolveIdentifier_ne_empty hres))

/-- Re-serializing an `Event` without mutation is stable. -/
lemma event_toGraph_stable {e : Event} {b t b' t' : String} {e' : Event}
    {g : List Triple} (h : Event.toGraph e b t = .ok (e', g)) :
    Event.toGraph e' b' t' = .ok (e', g) := by
  rcases event_toGraph_ok_iff.mp h with ⟨subj, hres, rfl, rfl⟩
  refine event_toGraph_ok_iff.mpr ⟨subj, ?_, rfl, rfl⟩
  exact resolveIdentifier_of_truthy _ _
    (truthyStr_some_iff.mpr (resolveIdentifier_ne_empty hres))

/-- Re-serializing a `CriterionRequirement` without mutation is stable. -/
lemma criterionRequirement_toGraph_stable {c : CriterionRequirement} {b t b' t' : String}
    {c' : CriterionRequirement} {g : List Triple}
    (h : CriterionRequirement.toGraph c b t = .ok (c', g)) :
    CriterionRequirement.toGraph c' b' t' = .ok (c', g) := by
  rcases criterionRequirement_toGraph_ok_iff.mp h with ⟨subj, hres, rfl, rfl⟩
  refine criterionRequirement_toGraph_ok_iff.mpr ⟨subj, ?_, rfl, rfl⟩
  exact resolveIdentifier_of_truthy _ _
    (truthyStr_some_iff.mpr (resolveIdentifier_ne_empty hres))

/-- Re-serializing a `PublicOrganization` without mutation is stable. -/
lemma publicOrganization_toGraph_stable {p : PublicOrganization} {b t b' t' : String}
    {p' : PublicOrganization} {g : List Triple}
    (h : PublicOrganization.toGraph p b t = .ok (p', g)) :
    PublicOrganization.toGraph p' b' t' = .ok (p', g) := by
  rcases publicOrganization_toGraph_ok_iff.mp h with ⟨subj, L, hres, rfl, hL, rfl⟩
  refine publicOrganization_toGraph_ok_iff.mpr ⟨subj, L, ?_, rfl, hL, rfl⟩
  exact resolveIdentifier_of_truthy _ _
    (truthyStr_some_iff.mpr (resolveIdentifier_ne_empty hres))

lemma rule_rawGraph_ok_iff {r : Rule} {subj : String} {L : List Triple} :
    Rule.rawGraph r subj = .ok L ↔
      ∃ implT,
        refListSeg subj (cpsv "implements") (fun lr => getSlot lr.identifier)
          r.implements = .ok implT ∧
        L = [⟨subj, rdfType, Obj.uri (cpsv "Rule")⟩]
          ++ langSeg subj (dct "title") r.title
          ++ plainLitSeg subj (dct "identifier") r.dct_identifier
          ++ langSeg subj (dct "description") r.description
          ++ implT
          ++ uriListSeg subj (dct "language") r.languages
          ++ uriListSeg subj (dct "type") r.types := by
  unfold Rule.rawGraph
  rw [except_bind_ok]
  constructor
  · rintro ⟨a, ha, hL⟩
    cases hL
    exact ⟨a, ha, rfl⟩
  · rintro ⟨a, ha, rfl⟩
    exact ⟨a, ha, rfl⟩

lemma legalResource_rawGraph_ok_iff {l : LegalResource} {subj : String} {L : List Triple} :
    LegalResource.rawGraph l subj = .ok L ↔
      ∃ typesT relatedT,
        refListSeg subj (dct "type") (fun rt => getSlot rt.identifier) l.types = .ok typesT ∧
        refListSeg subj (dct "relation") (fun lr => getSlot lr.identifier)
          l.related = .ok relatedT ∧
        L = [⟨subj, rdfType, Obj.uri (eli "LegalResource")⟩]
          ++ typesT
          ++ plainLitSeg subj (dct "identifier") l.dct_identifier
          ++ langSeg subj (dct "description") l.description
          ++ uriListSeg subj (rdfs "seeAlso") l.references
          ++ relatedT := by
  unfold LegalResource.rawGraph
  rw [except_bind_ok]
  constructor
  · rintro ⟨a, ha, hrest⟩
    rw [except_bind_ok] at hrest
    rcases hrest with ⟨b, hb, hL⟩
    cases hL
    exact ⟨a, b, ha, hb, rfl⟩
  · rintro ⟨a, b, ha, hb, rfl⟩
    refine ⟨a, ha, ?_⟩
    rw [except_bind_ok]
    exact ⟨b, hb, rfl⟩

lemma publicOrganization_rawGraph_ok_iff {p : PublicOrganization} {subj : String}
    {L : List Triple} :
    PublicOrganization.rawGraph p subj = .ok L ↔
      ∃ spatialT,
        refOptSeg subj (dct "spatial") (fun loc => getSlot loc.identifier)
          p.spatial_coverage = .ok spatialT ∧
        L = [⟨subj, rdfType, Obj.uri (cv "PublicOrganization")⟩]
          ++ langSeg subj (dct "title") p.title
          ++ plainLitSeg subj (dct "identifier") p.dct_identifier
          ++ langSeg subj (skos "prefLabel") p.pref_label
          ++ spatialT := by
  unfold PublicOrganization.rawGraph
  rw [except_bind_ok]
  constructor
  · rintro ⟨a, ha, hL⟩
    cases hL
    exact ⟨a, ha, rfl⟩
  · rintro ⟨a, ha, rfl⟩
    exact ⟨a, ha, rfl⟩

lemma service_toGraph_ok_iff {s : Service} {g : List Triple} :
    Service.toGraph s = .ok g ↔
      ∃ authT followsT legalT inputT groupT,
        refOptSeg s.identifier (cv "hasCompetentAuthority")
          (fun o => getSlot o.identifier) s.has_competent_authority = .ok authT ∧
        refListSeg s.identifier (cpsv "follows")
          (fun r => getSlot r.identifier) s.follows = .ok followsT ∧
        refListSeg s.identifier (cv "hasLegalResource")
          (fun l => getSlot l.identifier) s.has_legal_resources = .ok legalT ∧
        refListSeg s.identifier (cpsv "hasInput")
          (fun e => getSlot e.identifier) s.has_input = .ok inputT ∧
        refListSeg s.identifier (cv "isGroupedBy")
          (fun e => getSlot e.identifier) s.is_grouped_by = .ok groupT ∧
        g = Graph.ofList ([⟨s.identifier, rdfType, Obj.uri (cpsv "PublicService")⟩]
          ++ langSeg s.identifier (dct "title") s.title
          ++ langSeg s.identifier (dct "description") s.description
          ++ plainLitSeg s.identifier (dct "identifier") s.dct_identifier
          ++ authT
          ++ followsT
          ++ legalT
          ++ typedLitSeg s.identifier (cv "processingTime") (xsd "duration") s.processing_time
          ++ inputT
          ++ groupT) := by
  unfold Service.toGraph
  rw [except_bind_ok]
  constructor
  · rintro ⟨a, ha, h1⟩
    rw [except_bind_ok] at h1
    rcases h1 with ⟨b, hb, h2⟩
    rw [except_bind_ok] at h2
    rcases h2 with ⟨c, hc, h3⟩
    rw [except_bind_ok] at h3
    rcases h3 with ⟨d, hd, h4⟩
    rw [except_bind_ok] at h4
    rcases h4 with ⟨e, he, hg⟩
    cases hg
    exact ⟨a, b, c, d, e, ha, hb, hc, hd, he, rfl⟩
  · rintro ⟨a, b, c, d, e, ha, hb, hc, hd, he, rfl⟩
    refine ⟨a, ha, ?_⟩
    rw [except_bind_ok]
    refine ⟨b, hb, ?_⟩
    rw [except_bind_ok]
    refine ⟨c, hc, ?_⟩
    rw [except_bind_ok]
    refine ⟨d, hd, ?_⟩
    rw [except_bind_ok]
    exact ⟨e, he, rfl⟩

lemma subj_of_mem_langSeg {subj pred : String} {d : Option LangDict} {t : Triple}
    (h : t ∈ langSeg subj pred d) : t.subj = subj := by
  rcases mem_langSeg.mp h with ⟨m, _, kv, _, rfl⟩
  rfl

lemma subj_of_mem_plainLitSeg {subj pred : String} {v : Option String} {t : Triple}
    (h : t ∈ plainLitSeg subj pred v) : t.subj = subj := by
  rcases mem_plainLitSeg.mp h with ⟨s, _, _, rfl⟩
  rfl

lemma subj_of_mem_typedLitSeg {subj pred dt : String} {v : Option String} {t : Triple}
    (h : t ∈ typedLitSeg subj pred dt v) : t.subj = subj := by
  rcases mem_typedLitSeg.mp h with ⟨s, _, _, rfl⟩
  rfl

lemma subj_of_mem_uriOptSeg {subj pred : String} {v : Option String} {t : Triple}
    (h : t ∈ uriOptSeg subj pred v) : t.subj = subj := by
  rcases mem_uriOptSeg.mp h with ⟨s, _, _, rfl⟩
  rfl

lemma subj_of_mem_uriListSeg {subj pred : String} {xs : List String} {t : Triple}
    (h : t ∈ uriListSeg subj pred xs) : t.subj = subj := by
  rcases mem_uriListSeg.mp h with ⟨u, _, rfl⟩
  rfl

lemma subj_of_mem_refListSeg {α : Type} {subj pred : String}
    {getId : α → Except String String} {xs : List α} {L : List Triple} {t : Triple}
    (h : refListSeg subj pred getId xs = .ok L) (ht : t ∈ L) : t.subj = subj := by
  rcases (refListSeg_ok_mem h t).mp ht with ⟨x, _, u, _, rfl⟩
  rfl

lemma subj_of_mem_refOptSeg {α : Type} {subj pred : String}
    {getId : α → Except String String} {o : Option α} {L : List Triple} {t : Triple}
    (h : refOptSeg subj pred getId o = .ok L) (ht : t ∈ L) : t.subj = subj := by
  rcases (refOptSeg_ok_mem h t).mp ht with ⟨a, _, u, _, rfl⟩
  rfl

/-- Every triple of a serialized `Rule` graph has the rule's own resolved
identifier as subject: referenced entities are linked, never described. -/
lemma rule_toGraph_subj {r : Rule} {b t : String} {r' : Rule} {g : List Triple}
    (h : Rule.toGraph r b t = .ok (r', g)) :
    ∃ subj, r'.identifier = some subj ∧ ∀ x ∈ g, x.subj = subj := by
  rcases rule_toGraph_ok_iff.mp h with ⟨subj, L, _, rfl, hL, rfl⟩
  refine ⟨subj, rfl, ?_⟩
  intro x hx
  rw [Graph.mem_ofList] at hx
  rcases rule_rawGraph_ok_iff.mp hL with ⟨implT, hImpl, rfl⟩
  simp only [List.append_assoc, List.mem_append, List.mem_singleton] at hx
  rcases hx with rfl | hx | hx | hx | hx | hx | hx
  · rfl
  · exact subj_of_mem_langSeg hx
  · exact subj_of_mem_plainLitSeg hx
  · exact subj_of_mem_langSeg hx
  · exact subj_of_mem_refListSeg hImpl hx
  · exact subj_of_mem_uriListSeg hx
  · exact subj_of_mem_uriListSeg hx

/-- Every triple of a serialized `LegalResource` graph has the resource's
own resolved identifier as subject. -/
lemma legalResource_toGraph_subj {l : LegalResource} {b t : String} {l' : LegalResource}
    {g : List Triple} (h : LegalResource.toGraph l b t = .ok (l', g)) :
    ∃ subj, l'.identifier = some subj ∧ ∀ x ∈ g, x.subj = subj := by
  rcases legalResource_toGraph_ok_iff.mp h with ⟨subj, L, _, rfl, hL, rfl⟩
  refine ⟨subj, by simp, ?_⟩
  intro x hx
  rw [Graph.mem_ofList] at hx
  rcases legalResource_rawGraph_ok_iff.mp hL with ⟨typesT, relatedT, hT, hR, rfl⟩
  simp only [List.append_assoc, List.mem_append, List.mem_singleton] at hx
  rcases hx with rfl | hx | hx | hx | hx | hx
  · rfl
  · exact subj_of_mem_refListSeg hT hx
  · exact subj_of_mem_plainLitSeg hx
  · exact subj_of_mem_langSeg hx
  · exact subj_of_mem_uriListSeg hx
  · exact subj_of_mem_refListSeg hR hx

/-- Every triple of a serialized `Evidence` graph has the evidence's own
resolved identifier as subject. -/
lemma evidence_toGraph_subj {e : Evidence} {b t : String} {e' : Evidence}
    {g : List Triple} (h : Evidence.toGraph e b t = .ok (e', g)) :
    ∃ subj, e'.identifier = some subj ∧ ∀ x ∈ g, x.subj = subj := by
  rcases evidence_toGraph_ok_iff.mp h with ⟨subj, _, rfl, rfl⟩
  refine ⟨subj, rfl, ?_⟩
  intro x hx
  rw [Graph.mem_ofList] at hx
  unfold Evidence.rawGraph at hx
  simp only [List.append_assoc, List.mem_append, List.mem_singleton] at hx
  rcases hx with rfl | hx | hx | hx | hx | hx | hx
  · rfl
  · exact subj_of_mem_plainLitSeg hx
  · exact subj_of_mem_langSeg hx
  · exact subj_of_mem_langSeg hx
  · exact subj_of_mem_uriOptSeg hx
  · exact subj_of_mem_uriListSeg hx
  · exact subj_of_mem_uriListSeg hx

/-- Every triple of a serialized `Event` graph has the event's own
resolved identifier as subject. -/
lemma event_toGraph_subj {e : Event} {b t : String} {e' : Event}
    {g : List Triple} (h : Event.toGraph e b t = .ok (e', g)) :
    ∃ subj, e'.identifier = some subj ∧ ∀ x ∈ g, x.subj = subj := by
  rcases event_toGraph_ok_iff.mp h with ⟨subj, _, rfl, rfl⟩
  refine ⟨subj, rfl, ?_⟩
  intro x hx
  rw [Graph.mem_ofList] at hx
  unfold Event.rawGraph at hx
  simp only [List.append_assoc, List.mem_append, List.mem_singleton] at hx
  rcases hx with rfl | hx | hx | hx | hx | hx
  · rfl
  · exact subj_of_mem_plainLitSeg hx
  · exact subj_of_mem_langSeg hx
  · exact subj_of_mem_langSeg hx
  · exact subj_of_mem_uriOptSeg hx
  · exact subj_of_mem_uriListSeg hx

/-- Every triple of a serialized `PublicOrganization` graph has the
organization's own resolved identifier as subject. -/
lemma publicOrganization_toGraph_subj {p : PublicOrganization} {b t : String}
    {p' : PublicOrganization} {g : List Triple}
    (h : PublicOrganization.toGraph p b t = .ok (p', g)) :
    ∃ subj, p'.identifier = some subj ∧ ∀ x ∈ g, x.subj = subj := by
  rcases publicOrganization_toGraph_ok_iff.mp h with ⟨subj, L, _, rfl, hL, rfl⟩
  refine ⟨subj, rfl, ?_⟩
  intro x hx
  rw [Graph.mem_ofList] at hx
  rcases publicOrganization_rawGraph_ok_iff.mp hL with ⟨spatialT, hS, rfl⟩
  simp only [List.append_assoc, List.mem_append, List.mem_singleton] at hx
  rcases hx with rfl | hx | hx | hx | hx
  · rfl
  · exact subj_of_mem_langSeg hx
  · exact subj_of_mem_plainLitSeg hx
  · exact subj_of_mem_langSeg hx
  · exact subj_of_mem_refOptSeg hS hx

/-- Every triple of a serialized `CriterionRequirement` graph has the
criterion requirement's own resolved identifier as subject. -/
lemma criterionRequirement_toGraph_subj {c : CriterionRequirement} {b t : String}
    {c' : CriterionRequirement} {g : List Triple}
    (h : CriterionRequirement.toGraph c b t = .ok (c', g)) :
    ∃ subj, c'.identifier = some subj ∧ ∀ x ∈ g, x.subj = subj := by
  rcases criterionRequirement_toGraph_ok_iff.mp h with ⟨subj, _, rfl, rfl⟩
  refine ⟨subj, rfl, ?_⟩
  intro x hx
  rw [Graph.mem_ofList] at hx
  unfold CriterionRequirement.rawGraph at hx
  simp only [List.append_assoc, List.mem_append, List.mem_singleton] at hx
  rcases hx with rfl | hx | hx | hx | hx
  · rfl
  · exact subj_of_mem_langSeg hx
  · exact subj_of_mem_typedLitSeg hx
  · exact subj_of_mem_langSeg hx
  · exact subj_of_mem_uriListSeg hx

/-- Every triple of a serialized `Service` graph has the service's own
identifier as subject. -/
lemma service_toGraph_subj {s : Service} {g : List Triple}
    (h : Service.toGraph s = .ok g) : ∀ x ∈ g, x.subj = s.identifier := by
  rcases service_toGraph_ok_iff.mp h with
    ⟨authT, followsT, legalT, inputT, groupT, hA, hF, hL, hI, hG, rfl⟩
  intro x hx
  rw [Graph.mem_ofList] at hx
  simp only [List.append_assoc, List.mem_append, List.mem_singleton] at hx
  rcases hx with rfl | hx | hx | hx | hx | hx | hx | hx | hx | hx
  · rfl
  · exact subj_of_mem_langSeg hx
  · exact subj_of_mem_langSeg hx
  · exact subj_of_mem_plainLitSeg hx
  · exact subj_of_mem_refOptSeg hA hx
  · exact subj_of_mem_refListSeg hF hx
  · exact subj_of_mem_refListSeg hL hx
  · exact subj_of_mem_typedLitSeg hx
  · exact subj_of_mem_refListSeg hI hx
  · exact subj_of_mem_refListSeg hG hx

lemma pred_of_mem_langSeg {subj pred : String} {d : Option LangDict} {t : Triple}
    (h : t ∈ langSeg subj pred d) : t.pred = pred := by
  rcases mem_langSeg.mp h with ⟨m, _, kv, _, rfl⟩
  rfl

lemma pred_of_mem_plainLitSeg {subj pred : String} {v : Option String} {t : Triple}
    (h : t ∈ plainLitSeg subj pred v) : t.pred = pred := by
  rcases mem_plainLitSeg.mp h with ⟨s, _, _, rfl⟩
  rfl

lemma pred_of_mem_typedLitSeg {subj pred dt : String} {v : Option String} {t : Triple}
    (h : t ∈ typedLitSeg subj pred dt v) : t.pred = pred := by
  rcases mem_typedLitSeg.mp h with ⟨s, _, _, rfl⟩
  rfl

lemma pred_of_mem_uriOptSeg {subj pred : String} {v : Option String} {t : Triple}
    (h : t ∈ uriOptSeg subj pred v) : t.pred = pred := by
  rcases mem_uriOptSeg.mp h with ⟨s, _, _, rfl⟩
  rfl

lemma pred_of_mem_uriListSeg {subj pred : String} {xs : List String} {t : Triple}
    (h : t ∈ uriListSeg subj pred xs) : t.pred = pred := by
  rcases mem_uriListSeg.mp h with ⟨u, _, rfl⟩
  rfl

lemma pred_of_mem_refListSeg {α : Type} {subj pred : String}
    {getId : α → Except String String} {xs : List α} {L : List Triple} {t : Triple}
    (h : refListSeg subj pred getId xs = .ok L) (ht : t ∈ L) : t.pred = pred := by
  rcases (refListSeg_ok_mem h t).mp ht with ⟨x, _, u, _, rfl⟩
  rfl

lemma pred_of_mem_refOptSeg {α : Type} {subj pred : String}
    {getId : α → Except String String} {o : Option α} {L : List Triple} {t : Triple}
    (h : refOptSeg subj pred getId o = .ok L) (ht : t ∈ L) : t.pred = pred := by
  rcases (refOptSeg_ok_mem h t).mp ht with ⟨a, _, u, _, rfl⟩
  rfl

/-- The number of triples of a graph carrying a given predicate. -/
def countPred (g : List Triple) (P : String) : Nat :=
  (g.filter (fun x => x.pred == P)).length

/-- The number of language keys of an optional language dict (0 when the
attribute is unset). -/
def langLen : Option LangDict → Nat
  | none => 0
  | some m => m.length

/-- The language keys of an optional language dict are pairwise distinct
(Python dicts guarantee this; for an unset attribute it is vacuous). -/
def langKeysNodup : Option LangDict → Prop
  | none => True
  | some m => (m.map Prod.fst).Nodup

lemma filter_pred_nil {l : List Triple} {P : String} (h : ∀ x ∈ l, x.pred ≠ P) :
    l.filter (fun x => x.pred == P) = [] := by
  rw [List.filter_eq_nil_iff]
  intro a ha
  simpa using h a ha

lemma filter_pred_self {l : List Triple} {P : String} (h : ∀ x ∈ l, x.pred = P) :
    l.filter (fun x => x.pred == P) = l := by
  rw [List.filter_eq_self]
  intro a ha
  simpa using h a ha

lemma langSeg_injective (subj pred : String) :
    Function.Injective (fun kv : String × String => (⟨subj, pred, Obj.langLit kv.2 kv.1⟩ : Triple)) := by
  rintro ⟨k1, v1⟩ ⟨k2, v2⟩ h
  simp only [Triple.mk.injEq, Obj.langLit.injEq, true_and] at h
  cases h with
  | intro h1 h2 => cases h1; cases h2; rfl

lemma langSeg_nodup {subj pred : String} {m : LangDict}
    (hk : (m.map Prod.fst).Nodup) : (langSeg subj pred (some m)).Nodup := by
  rw [langSeg_some]
  exact (hk.of_map).map (langSeg_injective subj pred)

lemma langSeg_length {subj pred : String} (m : LangDict) :
    (langSeg subj pred (some m)).length = m.length := by
  rw [langSeg_some, List.length_map]

/-- Counting in a built graph through a filter characterization of the
raw `add` sequence. -/
lemma countPred_ofList_of_filter {L T : List Triple} {P : String}
    (hfil : L.filter (fun x => x.pred == P) = T) (hT : T.Nodup) :
    countPred (Graph.ofList L) P = T.length := by
  unfold countPred
  rw [Graph.length_filter_ofList, hfil, List.toFinset_card_of_nodup hT]

/-- Counting when the matching raw triples appear twice in a row (as with
`CriterionRequirement`'s double title emission): rdflib's set semantics
collapse the duplicates. -/
lemma countPred_ofList_of_filter_double {L T : List Triple} {P : String}
    (hfil : L.filter (fun x => x.pred == P) = T ++ T) (hT : T.Nodup) :
    countPred (Graph.ofList L) P = T.length := by
  unfold countPred
  rw [Graph.length_filter_ofList, hfil, List.toFinset_append, Finset.union_self,
    List.toFinset_card_of_nodup hT]

/-- Membership characterization of a serialized `Rule` graph. -/
lemma rule_toGraph_mem {r : Rule} {b t : String} {r' : Rule} {g : List Triple}
    (h : Rule.toGraph r b t = .ok (r', g)) :
    ∃ subj implT, r'.identifier = some subj ∧
      refListSeg subj (cpsv "implements") (fun lr => getSlot lr.identifier)
        r.implements = .ok implT ∧
      ∀ x, x ∈ g ↔ (x = ⟨subj, rdfType, Obj.uri (cpsv "Rule")⟩
        ∨ x ∈ langSeg subj (dct "title") r.title
        ∨ x ∈ plainLitSeg subj (dct "identifier") r.dct_identifier
        ∨ x ∈ langSeg subj (dct "description") r.description
        ∨ x ∈ implT
        ∨ x ∈ uriListSeg subj (dct "language") r.languages
        ∨ x ∈ uriListSeg subj (dct "type") r.types) := by
  rcases rule_toGraph_ok_iff.mp h with ⟨subj, L, _, rfl, hL, rfl⟩
  rcases rule_rawGraph_ok_iff.mp hL with ⟨implT, hImpl, rfl⟩
  refine ⟨subj, implT, rfl, hImpl, ?_⟩
  intro x
  rw [Graph.mem_ofList]
  simp [List.append_assoc, List.mem_append]

/-- Membership characterization of a serialized `LegalResource` graph. -/
lemma legalResource_toGraph_mem {l : LegalResource} {b t : String} {l' : LegalResource}
    {g : List Triple} (h : LegalResource.toGraph l b t = .ok (l', g)) :
    ∃ subj typesT relatedT, l'.identifier = some subj ∧
      refListSeg subj (dct "type") (fun rt => getSlot rt.identifier) l.types = .ok typesT ∧
      refListSeg subj (dct "relation") (fun lr => getSlot lr.identifier)
        l.related = .ok relatedT ∧
      ∀ x, x ∈ g ↔ (x = ⟨subj, rdfType, Obj.uri (eli "LegalResource")⟩
        ∨ x ∈ typesT
        ∨ x ∈ plainLitSeg subj (dct "identifier") l.dct_identifier
        ∨ x ∈ langSeg subj (dct "description") l.description
        ∨ x ∈ uriListSeg subj (rdfs "seeAlso") l.references
        ∨ x ∈ relatedT) := by
  rcases legalResource_toGraph_ok_iff.mp h with ⟨subj, L, _, rfl, hL, rfl⟩
  rcases legalResource_rawGraph_ok_iff.mp hL with ⟨typesT, relatedT, hT, hR, rfl⟩
  simp only [LegalResource.types_withIdentifier, LegalResource.related_withIdentifier,
    LegalResource.dct_identifier_withIdentifier,
    LegalResource.description_withIdentifier,
    LegalResource.references_withIdentifier] at hT hR ⊢
  refine ⟨subj, typesT, relatedT, by simp, hT, hR, ?_⟩
  intro x
  rw [Graph.mem_ofList]
  simp [List.append_assoc, List.mem_append]

/-- Membership characterization of a serialized `Evidence` graph. -/
lemma evidence_toGraph_mem {e : Evidence} {b t : String} {e' : Evidence}
    {g : List Triple} (h : Evidence.toGraph e b t = .ok (e', g)) :
    ∃ subj, e'.identifier = some subj ∧
      ∀ x, x ∈ g ↔ (x = ⟨subj, rdfType, Obj.uri (cpsv "Evidence")⟩
        ∨ x ∈ plainLitSeg subj (dct "identifier") e.dct_identifier
        ∨ x ∈ langSeg subj (dct "title") e.name
        ∨ x ∈ langSeg subj (dct "description") e.description
        ∨ x ∈ uriOptSeg subj (dct "type") e.type
        ∨ x ∈ uriListSeg subj (foaf "page") e.related_documentation
        ∨ x ∈ uriListSeg subj (dct "language") e.languages) := by
  rcases evidence_toGraph_ok_iff.mp h with ⟨subj, _, rfl, rfl⟩
  refine ⟨subj, rfl, ?_⟩
  intro x
  rw [Graph.mem_ofList]
  unfold Evidence.rawGraph
  simp [List.append_assoc, List.mem_append]

/-- Membership characterization of a serialized `Event` graph. -/
lemma event_toGraph_mem {e : Event} {b t : String} {e' : Event}
    {g : List Triple} (h : Event.toGraph e b t = .ok (e', g)) :
    ∃ subj, e'.identifier = some subj ∧
      ∀ x, x ∈ g ↔ (x = ⟨subj, rdfType, Obj.uri (cpsv "Event")⟩
        ∨ x ∈ plainLitSeg subj (dct "identifier") e.dct_identifier
        ∨ x ∈ langSeg subj (dct "title") e.name
        ∨ x ∈ langSeg subj (dct "description") e.description
        ∨ x ∈ uriOptSeg subj (dct "type") e.type
        ∨ x ∈ uriListSeg subj (dct "relation") e.related_service) := by
  rcases event_toGraph_ok_iff.mp h with ⟨subj, _, rfl, rfl⟩
  refine ⟨subj, rfl, ?_⟩
  intro x
  rw [Graph.mem_ofList]
  unfold Event.rawGraph
  simp [List.append_assoc, List.mem_append]

/-- Membership characterization of a serialized `PublicOrganization` graph. -/
lemma publicOrganization_toGraph_mem {p : PublicOrganization} {b t : String}
    {p' : PublicOrganization} {g : List Triple}
    (h : PublicOrganization.toGraph p b t = .ok (p', g)) :
    ∃ subj spatialT, p'.identifier = some subj ∧
      refOptSeg subj (dct "spatial") (fun loc => getSlot loc.identifier)
        p.spatial_coverage = .ok spatialT ∧
      ∀ x, x ∈ g ↔ (x = ⟨subj, rdfType, Obj.uri (cv "PublicOrganization")⟩
        ∨ x ∈ langSeg subj (dct "title") p.title
        ∨ x ∈ plainLitSeg subj (dct "identifier") p.dct_identifier
        ∨ x ∈ langSeg subj (skos "prefLabel") p.pref_label
        ∨ x ∈ spatialT) := by
  rcases publicOrganization_toGraph_ok_iff.mp h with ⟨subj, L, _, rfl, hL, rfl⟩
  rcases publicOrganization_rawGraph_ok_iff.mp hL with ⟨spatialT, hS, rfl⟩
  refine ⟨subj, spatialT, rfl, hS, ?_⟩
  intro x
  rw [Graph.mem_ofList]
  simp [List.append_assoc, List.mem_append]

/-- Membership characterization of a serialized `CriterionRequirement`
graph.  The title emission appears twice in the raw sequence but set
semantics make the second pass invisible to membership. -/
lemma criterionRequirement_toGraph_mem {c : CriterionRequirement} {b t : String}
    {c' : CriterionRequirement} {g : List Triple}
    (h : CriterionRequirement.toGraph c b t = .ok (c', g)) :
    ∃ subj, c'.identifier = some subj ∧
      ∀ x, x ∈ g ↔ (x = ⟨subj, rdfType, Obj.uri (cv "CriterionRequirement")⟩
        ∨ x ∈ langSeg subj (dct "title") c.title
        ∨ x ∈ typedLitSeg subj (dct "identifier") (xsd "anyURI") c.dct_identifier
        ∨ x ∈ uriListSeg subj (dct "type") c.types) := by
  rcases criterionRequirement_toGraph_ok_iff.mp h with ⟨subj, _, rfl, rfl⟩
  refine ⟨subj, rfl, ?_⟩
  intro x
  rw [Graph.mem_ofList]
  unfold CriterionRequirement.rawGraph
  simp only [List.append_assoc, List.mem_append, List.mem_singleton]
  tauto

/-- Membership characterization of a serialized `Service` graph. -/
lemma service_toGraph_mem {s : Service} {g : List Triple}
    (h : Service.toGraph s = .ok g) :
    ∃ authT followsT legalT inputT groupT,
      refOptSeg s.identifier (cv "hasCompetentAuthority")
        (fun o => getSlot o.identifier) s.has_competent_authority = .ok authT ∧
      refListSeg s.identifier (cpsv "follows")
        (fun r => getSlot r.identifier) s.follows = .ok followsT ∧
      refListSeg s.identifier (cv "hasLegalResource")
        (fun l => getSlot l.identifier) s.has_legal_resources = .ok legalT ∧
      refListSeg s.identifier (cpsv "hasInput")
        (fun e => getSlot e.identifier) s.has_input = .ok inputT ∧
      refListSeg s.identifier (cv "isGroupedBy")
        (fun e => getSlot e.identifier) s.is_grouped_by = .ok groupT ∧
      ∀ x, x ∈ g ↔ (x = ⟨s.identifier, rdfType, Obj.uri (cpsv "PublicService")⟩
        ∨ x ∈ langSeg s.identifier (dct "title") s.title
        ∨ x ∈ langSeg s.identifier (dct "description") s.description
        ∨ x ∈ plainLitSeg s.identifier (dct "identifier") s.dct_identifier
        ∨ x ∈ authT
        ∨ x ∈ followsT
        ∨ x ∈ legalT
        ∨ x ∈ typedLitSeg s.identifier (cv "processingTime") (xsd "duration") s.processing_time
        ∨ x ∈ inputT
        ∨ x ∈ groupT) := by
  rcases service_toGraph_ok_iff.mp h with
    ⟨authT, followsT, legalT, inputT, groupT, hA, hF, hL, hI, hG, rfl⟩
  refine ⟨authT, followsT, legalT, inputT, groupT, hA, hF, hL, hI, hG, ?_⟩
  intro x
  rw [Graph.mem_ofList]
  simp [List.append_assoc, List.mem_append]

lemma setIdentifierSlot_falsy {v : Option String} (old : Option String)
    (h : truthyStr v = false) : setIdentifierSlot old v = old := by
  simp [setIdentifierSlot, h]

lemma setIdentifierSlot_ne_none {old : Option String} (w : Option String)
    (h : old ≠ none) : setIdentifierSlot old w ≠ none := by
  unfold setIdentifierSlot
  split
  · next hw =>
    rcases truthy_exists hw with ⟨s, rfl, _⟩
    simp
  · exact h

lemma LegalResource.withIdentifier_self (l : LegalResource) :
    l.withIdentifier l.identifier = l := by
  cases l
  rfl

/-- Claim C10: for Rule, LegalResource, ResourceType, PublicOrganization,
Evidence, Event and CriterionRequirement, assigning a falsy value
(`None` or `""`) to the `identifier` property is a silent no-op — it is
a total function that leaves the entity, and in particular any
previously stored identifier, unchanged — and consequently an
identifier, once set, can never be removed through the setter, only
replaced by another non-empty value. -/
theorem C10_identifier_setter_falsy_noop
    (v : Option String) (hv : v = none ∨ v = some "")
    (r : Rule) (l : LegalResource) (rt : ResourceType) (p : PublicOrganization)
    (ev : Evidence) (e : Event) (c : CriterionRequirement) :
    (Rule.setIdentifier r v = r ∧ LegalResource.setIdentifier l v = l ∧
      ResourceType.setIdentifier rt v = rt ∧ PublicOrganization.setIdentifier p v = p ∧
      Evidence.setIdentifier ev v = ev ∧ Event.setIdentifier e v = e ∧
      CriterionRequirement.setIdentifier c v = c) ∧
    (∀ w : Option String,
      (r.identifier ≠ none → (Rule.setIdentifier r w).identifier ≠ none) ∧
      (l.identifier ≠ none → (LegalResource.setIdentifier l w).identifier ≠ none) ∧
      (rt.identifier ≠ none → (ResourceType.setIdentifier rt w).identifier ≠ none) ∧
      (p.identifier ≠ none → (PublicOrganization.setIdentifier p w).identifier ≠ none) ∧
      (ev.identifier ≠ none → (Evidence.setIdentifier ev w).identifier ≠ none) ∧
      (e.identifier ≠ none → (Event.setIdentifier e w).identifier ≠ none) ∧
      (c.identifier ≠ none → (CriterionRequirement.setIdentifier c w).identifier ≠ none)) := by
  have hfalsy : truthyStr v = false := by
    rcases hv with rfl | rfl <;> rfl
  constructor
  · refine ⟨?_, ?_, ?_, ?_, ?_, ?_, ?_⟩
    · simp [Rule.setIdentifier, setIdentifierSlot_falsy _ hfalsy]
    · rw [LegalResource.setIdentifier, setIdentifierSlot_falsy _ hfalsy,
        LegalResource.withIdentifier_self]
    · simp [ResourceType.setIdentifier, setIdentifierSlot_falsy _ hfalsy]
    · simp [PublicOrganization.setIdentifier, setIdentifierSlot_falsy _ hfalsy]
    · simp [Evidence.setIdentifier, setIdentifierSlot_falsy _ hfalsy]
    · simp [Event.setIdentifier, setIdentifierSlot_falsy _ hfalsy]
    · simp [CriterionRequirement.setIdentifier, setIdentifierSlot_falsy _ hfalsy]
  · intro w
    refine ⟨?_, ?_, ?_, ?_, ?_, ?_, ?_⟩ <;> intro hset
    · exact setIdentifierSlot_ne_none w hset
    · rw [LegalResource.setIdentifier, LegalResource.identifier_withIdentifier]
      exact setIdentifierSlot_ne_none w hset
    · exact setIdentifierSlot_ne_none w hset
    · exact setIdentifierSlot_ne_none w hset
    · exact setIdentifierSlot_ne_none w hset
    · exact setIdentifierSlot_ne_none w hset
    · exact setIdentifierSlot_ne_none w hset

/-- Witness for C10 at concrete inputs: assigning `None` to a Rule that
already carries an identifier changes nothing, and assigning `""` does
not clear the stored identifier. -/
theorem C10_identifier_setter_falsy_noop_witness :
    Rule.setIdentifier (Rule.init (some "http://example.com/rules/1")) none
      = Rule.init (some "http://example.com/rules/1") ∧
    (Rule.setIdentifier (Rule.init (some "http://example.com/rules/1"))
      (some "")).identifier ≠ none := by
  have h := C10_identifier_setter_falsy_noop none (Or.inl rfl)
    (Rule.init (some "http://example.com/rules/1")) (LegalResource.init none)
    (ResourceType.init none) (PublicOrganization.init none) (Evidence.init none)
    (Event.init none) (CriterionRequirement.init none)
  exact ⟨h.1.1, (h.2 (some "")).1 (by decide)⟩

/-- Counterexample to claim C1 as stated: `Service` cannot be
constructed with its identifier absent — `Service.__init__` requires an
identifier and passing none raises instead of deferring to
skolemization. -/
theorem C1_counterexample_service_requires_identifier :
    Service.init none = Except.error "InvalidURIError" := rfl

/-- Claim C1 (amended: all entity kinds except `Service`, whose
constructor requires an explicit identifier and whose serializer never
skolemizes): Rule, LegalResource, PublicOrganization, Evidence, Event
and CriterionRequirement can be constructed with the identifier absent;
at serialization the skolem URI `<base>/.well-known/skolem/<token>`
becomes the stored, permanent identifier, it is the subject of the
output graph, and a second serialization (even with a different skolem
mint available) returns the identical entity state and graph. -/
theorem C1_amended_skolemization_on_serialize (base tok base' tok' : String) :
    (Rule.toGraph (Rule.init none) base tok =
      .ok ({ Rule.init none with
              identifier := some (base ++ "/.well-known/skolem/" ++ tok) },
           [⟨base ++ "/.well-known/skolem/" ++ tok, rdfType, Obj.uri (cpsv "Rule")⟩]) ∧
     Rule.toGraph { Rule.init none with
              identifier := some (base ++ "/.well-known/skolem/" ++ tok) } base' tok' =
      .ok ({ Rule.init none with
              identifier := some (base ++ "/.well-known/skolem/" ++ tok) },
           [⟨base ++ "/.well-known/skolem/" ++ tok, rdfType, Obj.uri (cpsv "Rule")⟩])) ∧
    (LegalResource.toGraph (LegalResource.init none) base tok =
      .ok (LegalResource.mk (some (base ++ "/.well-known/skolem/" ++ tok))
             none [] none [] [],
           [⟨base ++ "/.well-known/skolem/" ++ tok, rdfType,
             Obj.uri (eli "LegalResource")⟩]) ∧
     LegalResource.toGraph (LegalResource.mk
             (some (base ++ "/.well-known/skolem/" ++ tok)) none [] none [] []) base' tok' =
      .ok (LegalResource.mk (some (base ++ "/.well-known/skolem/" ++ tok))
             none [] none [] [],
           [⟨base ++ "/.well-known/skolem/" ++ tok, rdfType,
             Obj.uri (eli "LegalResource")⟩])) ∧
    (PublicOrganization.toGraph (PublicOrganization.init none) base tok =
      .ok ({ PublicOrganization.init none with
              identifier := some (base ++ "/.well-known/skolem/" ++ tok) },
           [⟨base ++ "/.well-known/skolem/" ++ tok, rdfType,
             Obj.uri (cv "PublicOrganization")⟩]) ∧
     PublicOrganization.toGraph { PublicOrganization.init none with
              identifier := some (base ++ "/.well-known/skolem/" ++ tok) } base' tok' =
      .ok ({ PublicOrganization.init none with
              identifier := some (base ++ "/.well-known/skolem/" ++ tok) },
           [⟨base ++ "/.well-known/skolem/" ++ tok, rdfType,
             Obj.uri (cv "PublicOrganization")⟩])) ∧
    (Evidence.toGraph (Evidence.init none) base tok =
      .ok ({ Evidence.init none with
              identifier := some (base ++ "/.well-known/skolem/" ++ tok) },
           [⟨base ++ "/.well-known/skolem/" ++ tok, rdfType, Obj.uri (cpsv "Evidence")⟩]) ∧
     Evidence.toGraph { Evidence.init none with
              identifier := some (base ++ "/.well-known/skolem/" ++ tok) } base' tok' =
      .ok ({ Evidence.init none with
              identifier := some (base ++ "/.well-known/skolem/" ++ tok) },
           [⟨base ++ "/.well-known/skolem/" ++ tok, rdfType, Obj.uri (cpsv "Evidence")⟩])) ∧
    (Event.toGraph (Event.init none) base tok =
      .ok ({ Event.init none with
              identifier := some (base ++ "/.well-known/skolem/" ++ tok) },
           [⟨base ++ "/.well-known/skolem/" ++ tok, rdfType, Obj.uri (cpsv "Event")⟩]) ∧
     Event.toGraph { Event.init none with
              identifier := some (base ++ "/.well-known/skolem/" ++ tok) } base' tok' =
      .ok ({ Event.init none with
              identifier := some (base ++ "/.well-known/skolem/" ++ tok) },
           [⟨base ++ "/.well-known/skolem/" ++ tok, rdfType, Obj.uri (cpsv "Event")⟩])) ∧
    (CriterionRequirement.toGraph (CriterionRequirement.init none) base tok =
      .ok ({ CriterionRequirement.init none with
              identifier := some (base ++ "/.well-known/skolem/" ++ tok) },
           [⟨base ++ "/.well-known/skolem/" ++ tok, rdfType,
             Obj.uri (cv "CriterionRequirement")⟩]) ∧
     CriterionRequirement.toGraph { CriterionRequirement.init none with
              identifier := some (base ++ "/.well-known/skolem/" ++ tok) } base' tok' =
      .ok ({ CriterionRequirement.init none with
              identifier := some (base ++ "/.well-known/skolem/" ++ tok) },
           [⟨base ++ "/.well-known/skolem/" ++ tok, rdfType,
             Obj.uri (cv "CriterionRequirement")⟩])) := by
  have hres : ∀ b t : String, resolveIdentifier none b t =
      some (b ++ "/.well-known/skolem/" ++ t) := fun b t =>
    resolveIdentifier_of_not_truthy b t rfl
  have hRule : Rule.toGraph (Rule.init none) base tok =
      .ok ({ Rule.init none with
              identifier := some (base ++ "/.well-known/skolem/" ++ tok) },
           [⟨base ++ "/.well-known/skolem/" ++ tok, rdfType, Obj.uri (cpsv "Rule")⟩]) :=
    rule_toGraph_ok_iff.mpr ⟨_, _, hres base tok, rfl, rfl, rfl⟩
  have hLR : LegalResource.toGraph (LegalResource.init none) base tok =
      .ok (LegalResource.mk (some (base ++ "/.well-known/skolem/" ++ tok))
             none [] none [] [],
           [⟨base ++ "/.well-known/skolem/" ++ tok, rdfType,
             Obj.uri (eli "LegalResource")⟩]) :=
    legalResource_toGraph_ok_iff.mpr ⟨_, _, hres base tok, rfl, rfl, rfl⟩
  have hPO : PublicOrganization.toGraph (PublicOrganization.init none) base tok =
      .ok ({ PublicOrganization.init none with
              identifier := some (base ++ "/.well-known/skolem/" ++ tok) },
           [⟨base ++ "/.well-known/skolem/" ++ tok, rdfType,
             Obj.uri (cv "PublicOrganization")⟩]) :=
    publicOrganization_toGraph_ok_iff.mpr ⟨_, _, hres base tok, rfl, rfl, rfl⟩
  have hEv : Evidence.toGraph (Evidence.init none) base tok =
      .ok ({ Evidence.init none with
              identifier := some (base ++ "/.well-known/skolem/" ++ tok) },
           [⟨base ++ "/.well-known/skolem/" ++ tok, rdfType, Obj.uri (cpsv "Evidence")⟩]) :=
    evidence_toGraph_ok_iff.mpr ⟨_, hres base tok, rfl, rfl⟩
  have hE : Event.toGraph (Event.init none) base tok =
      .ok ({ Event.init none with
              identifier := some (base ++ "/.well-known/skolem/" ++ tok) },
           [⟨base ++ "/.well-known/skolem/" ++ tok, rdfType, Obj.uri (cpsv "Event")⟩]) :=
    event_toGraph_ok_iff.mpr ⟨_, hres base tok, rfl, rfl⟩
  have hC : CriterionRequirement.toGraph (CriterionRequirement.init none) base tok =
      .ok ({ CriterionRequirement.init none with
              identifier := some (base ++ "/.well-known/skolem/" ++ tok) },
           [⟨base ++ "/.well-known/skolem/" ++ tok, rdfType,
             Obj.uri (cv "CriterionRequirement")⟩]) :=
    criterionRequirement_toGraph_ok_iff.mpr ⟨_, hres base tok, rfl, rfl⟩
  exact ⟨⟨hRule, rule_toGraph_stable hRule⟩,
    ⟨hLR, legalResource_toGraph_stable hLR⟩,
    ⟨hPO, publicOrganization_toGraph_stable hPO⟩,
    ⟨hEv, evidence_toGraph_stable hEv⟩,
    ⟨hE, event_toGraph_stable hE⟩,
    ⟨hC, criterionRequirement_toGraph_stable hC⟩⟩

/-- Claim C2 evaluated at the failing input: a `Rule` with a set
identifier whose `implements` list holds a `LegalResource` constructed
without an identifier.  `Rule._implements_to_graph` reads the referenced
entity's `_identifier` slot directly — `URIRef(legal_resource.identifier)`
— so serialization raises `AttributeError` instead of skolemizing the
missing referenced identifier. -/
theorem C2_code_bug_missing_ref_identifier_raises :
    Rule.toGraph { Rule.init (some "http://example.com/rules/1") with
        implements := [LegalResource.init none] }
      "http://example.com" "284db4d2-80c2-11eb-82c3-83e80baa2f94" =
      .error "AttributeError" := rfl

/-- Claim C3 evaluated at its concrete scenario (`test_evidence.py`,
`test_to_graph_should_return_evidence_as_blank_node`): the subject is
the expected skolem URI, but the `dct:identifier` object the code emits
is the plain literal `Literal(self.dct_identifier)` — not a typed
literal, contradicting the claim and the test fixture
`"https://unique.uri.com"^^xsd:anyURI`. -/
theorem C3_code_bug_evidence_dct_identifier_untyped :
    Evidence.toGraph { Evidence.init none with
        dct_identifier := some "https://unique.uri.com" }
      "http://example.com" "284db4d2-80c2-11eb-82c3-83e80baa2f94" =
      .ok ({ Evidence.init none with
              identifier := some
                "http://example.com/.well-known/skolem/284db4d2-80c2-11eb-82c3-83e80baa2f94"
              dct_identifier := some "https://unique.uri.com" },
           [⟨"http://example.com/.well-known/skolem/284db4d2-80c2-11eb-82c3-83e80baa2f94",
             rdfType, Obj.uri (cpsv "Evidence")⟩,
            ⟨"http://example.com/.well-known/skolem/284db4d2-80c2-11eb-82c3-83e80baa2f94",
             dct "identifier", Obj.lit "https://unique.uri.com"⟩]) ∧
    Obj.lit "https://unique.uri.com" ≠
      Obj.typedLit "https://unique.uri.com" (xsd "anyURI") := by
  constructor
  · rfl
  · intro h
    cases h

/-- Claim C6: for every entity, serializing twice without mutating any
attribute in between yields the identical graph (hence triple-isomorphic
graphs) and the same entity state — the identifier, once resolved
(explicitly or by skolemization on the first call), is reused rather
than re-minted, even if the skolemizer would mint a different URI
(`b'`/`t'`) the second time.  `Service` never resolves an identifier at
serialization time, so its serializer is a pure function of the entity
state. -/
theorem C6_serialize_twice_stable
    (r : Rule) (l : LegalResource) (ev : Evidence) (e : Event)
    (p : PublicOrganization) (c : CriterionRequirement) (s : Service)
    (b t b' t' : String)
    (r' : Rule) (gr : List Triple) (hr : Rule.toGraph r b t = .ok (r', gr))
    (l' : LegalResource) (gl : List Triple)
    (hl : LegalResource.toGraph l b t = .ok (l', gl))
    (ev' : Evidence) (gev : List Triple) (hev : Evidence.toGraph ev b t = .ok (ev', gev))
    (e' : Event) (ge : List Triple) (he : Event.toGraph e b t = .ok (e', ge))
    (p' : PublicOrganization) (gp : List Triple)
    (hp : PublicOrganization.toGraph p b t = .ok (p', gp))
    (c' : CriterionRequirement) (gc : List Triple)
    (hc : CriterionRequirement.toGraph c b t = .ok (c', gc))
    (gs : List Triple) (hs : Service.toGraph s = .ok gs) :
    Rule.toGraph r' b' t' = .ok (r', gr) ∧
    LegalResource.toGraph l' b' t' = .ok (l', gl) ∧
    Evidence.toGraph ev' b' t' = .ok (ev', gev) ∧
    Event.toGraph e' b' t' = .ok (e', ge) ∧
    PublicOrganization.toGraph p' b' t' = .ok (p', gp) ∧
    CriterionRequirement.toGraph c' b' t' = .ok (c', gc) ∧
    Service.toGraph s = .ok gs :=
  ⟨rule_toGraph_stable hr, legalResource_toGraph_stable hl,
   evidence_toGraph_stable hev, event_toGraph_stable he,
   publicOrganization_toGraph_stable hp, criterionRequirement_toGraph_stable hc, hs⟩

/-- Witness for C6 at concrete inputs: each entity kind serialized once
(skolemizing where the identifier was absent) re-serializes, with a
different skolem mint available, to the identical entity and graph. -/
theorem C6_serialize_twice_stable_witness :
    Rule.toGraph { Rule.init none with
        identifier := some "http://example.com/.well-known/skolem/a" } "http://other.org" "b" =
      .ok ({ Rule.init none with
              identifier := some "http://example.com/.well-known/skolem/a" },
           [⟨"http://example.com/.well-known/skolem/a", rdfType, Obj.uri (cpsv "Rule")⟩]) ∧
    LegalResource.toGraph (LegalResource.mk
        (some "http://example.com/.well-known/skolem/a") none [] none [] [])
        "http://other.org" "b" =
      .ok (LegalResource.mk (some "http://example.com/.well-known/skolem/a")
            none [] none [] [],
           [⟨"http://example.com/.well-known/skolem/a", rdfType,
             Obj.uri (eli "LegalResource")⟩]) ∧
    Evidence.toGraph { Evidence.init none with
        identifier := some "http://example.com/.well-known/skolem/a" } "http://other.org" "b" =
      .ok ({ Evidence.init none with
              identifier := some "http://example.com/.well-known/skolem/a" },
           [⟨"http://example.com/.well-known/skolem/a", rdfType, Obj.uri (cpsv "Evidence")⟩]) ∧
    Event.toGraph { Event.init none with
        identifier := some "http://example.com/.well-known/skolem/a" } "http://other.org" "b" =
      .ok ({ Event.init none with
              identifier := some "http://example.com/.well-known/skolem/a" },
           [⟨"http://example.com/.well-known/skolem/a", rdfType, Obj.uri (cpsv "Event")⟩]) ∧
    PublicOrganization.toGraph { PublicOrganization.init none with
        identifier := some "http://example.com/.well-known/skolem/a" } "http://other.org" "b" =
      .ok ({ PublicOrganization.init none with
              identifier := some "http://example.com/.well-known/skolem/a" },
           [⟨"http://example.com/.well-known/skolem/a", rdfType,
             Obj.uri (cv "PublicOrganization")⟩]) ∧
    CriterionRequirement.toGraph { CriterionRequirement.init none with
        identifier := some "http://example.com/.well-known/skolem/a" } "http://other.org" "b" =
      .ok ({ CriterionRequirement.init none with
              identifier := some "http://example.com/.well-known/skolem/a" },
           [⟨"http://example.com/.well-known/skolem/a", rdfType,
             Obj.uri (cv "CriterionRequirement")⟩]) ∧
    Service.toGraph ⟨"http://example.com/services/1", none, none, none, none,
        [], [], none, [], []⟩ =
      .ok [⟨"http://example.com/services/1", rdfType, Obj.uri (cpsv "PublicService")⟩] :=
  C6_serialize_twice_stable
    (Rule.init none) (LegalResource.init none) (Evidence.init none) (Event.init none)
    (PublicOrganization.init none) (CriterionRequirement.init none)
    ⟨"http://example.com/services/1", none, none, none, none, [], [], none, [], []⟩
    "http://example.com" "a" "http://other.org" "b"
    _ _ rfl _ _ rfl _ _ rfl _ _ rfl _ _ rfl _ _ rfl _ rfl

/-- Claim C4 evaluated against the code: `Service` has no `has_criterion`
slot, property or emission rule (`service.py` `__slots__` lines 53-65 and
`_to_graph` lines 205-227), so a serialized Service graph never contains
a `cv:hasCriterion` triple — although the repository's own tests
(`test_service.py` lines 260-322) append to `service.has_criterion` and
expect one `cv:hasCriterion` link triple per element. -/
theorem C4_code_bug_no_has_criterion_emitted
    (s : Service) (g : List Triple) (h : Service.toGraph s = .ok g) :
    ∀ x ∈ g, x.pred ≠ cv "hasCriterion" := by
  rcases service_toGraph_mem h with
    ⟨authT, followsT, legalT, inputT, groupT, hA, hF, hL, hI, hG, hmem⟩
  intro x hx
  rcases (hmem x).mp hx with rfl | hx | hx | hx | hx | hx | hx | hx | hx | hx
  · show rdfType ≠ cv "hasCriterion"
    decide
  · rw [pred_of_mem_langSeg hx]
    decide
  · rw [pred_of_mem_langSeg hx]
    decide
  · rw [pred_of_mem_plainLitSeg hx]
    decide
  · rw [pred_of_mem_refOptSeg hA hx]
    decide
  · rw [pred_of_mem_refListSeg hF hx]
    decide
  · rw [pred_of_mem_refListSeg hL hx]
    decide
  · rw [pred_of_mem_typedLitSeg hx]
    decide
  · rw [pred_of_mem_refListSeg hI hx]
    decide
  · rw [pred_of_mem_refListSeg hG hx]
    decide

/-- Witness for C4: the concrete service of `test_service.py` serializes
to a graph whose single triple's predicate is not `cv:hasCriterion`. -/
theorem C4_code_bug_no_has_criterion_emitted_witness :
    (⟨"http://example.com/services/1", rdfType,
      Obj.uri (cpsv "PublicService")⟩ : Triple).pred ≠ cv "hasCriterion" :=
  C4_code_bug_no_has_criterion_emitted
    ⟨"http://example.com/services/1", none, none, none, none, [], [], none, [], []⟩
    [⟨"http://example.com/services/1", rdfType, Obj.uri (cpsv "PublicService")⟩]
    rfl _ (by decide)

/-- Claim C9: for every entity kind and every assignment of its optional
attributes to non-truthy values — each independently either unset
(`none`, never assigned) or set to an empty value (`{}`, `[]`, `""`) —
serialization does not raise, every such attribute contributes zero
triples, and the output graph is exactly the type triple.  An attribute
never assigned behaves identically to one assigned an empty value,
because every emission rule guards on the Python truthiness of
`getattr(self, attr, None)`.  The identifier may itself be set or unset
(it is then resolved by skolemization, except for `Service`, where it is
always set). -/
theorem C9_empty_attributes_emit_nothing
    (b tok : String)
    (ri dcti : Option String) (rti rde : Option LangDict) (rsubj : String)
    (hr1 : truthyStr dcti = false) (hr2 : truthyDict rti = false)
    (hr3 : truthyDict rde = false)
    (hrs : resolveIdentifier ri b tok = some rsubj)
    (li ldcti : Option String) (lde : Option LangDict) (lsubj : String)
    (hl1 : truthyStr ldcti = false) (hl2 : truthyDict lde = false)
    (hls : resolveIdentifier li b tok = some lsubj)
    (pi pdcti : Option String) (pti ppl : Option LangDict) (psubj : String)
    (hp1 : truthyStr pdcti = false) (hp2 : truthyDict pti = false)
    (hp3 : truthyDict ppl = false)
    (hps : resolveIdentifier pi b tok = some psubj)
    (evi evdcti evty : Option String) (evn evde : Option LangDict) (evsubj : String)
    (hv1 : truthyStr evdcti = false) (hv2 : truthyDict evn = false)
    (hv3 : truthyDict evde = false) (hv4 : truthyStr evty = false)
    (hvs : resolveIdentifier evi b tok = some evsubj)
    (ei edcti ety : Option String) (en ede : Option LangDict) (esubj : String)
    (he1 : truthyStr edcti = false) (he2 : truthyDict en = false)
    (he3 : truthyDict ede = false) (he4 : truthyStr ety = false)
    (hes : resolveIdentifier ei b tok = some esubj)
    (ci cdcti : Option String) (cti : Option LangDict) (csubj : String)
    (hc1 : truthyStr cdcti = false) (hc2 : truthyDict cti = false)
    (hcs : resolveIdentifier ci b tok = some csubj)
    (sid : String) (sti sde : Option LangDict) (sdcti spt : Option String)
    (hs1 : truthyDict sti = false) (hs2 : truthyDict sde = false)
    (hs3 : truthyStr sdcti = false) (hs4 : truthyStr spt = false) :
    Rule.toGraph ⟨ri, dcti, rti, rde, [], [], []⟩ b tok =
      .ok (⟨some rsubj, dcti, rti, rde, [], [], []⟩,
           [⟨rsubj, rdfType, Obj.uri (cpsv "Rule")⟩]) ∧
    LegalResource.toGraph (LegalResource.mk li ldcti [] lde [] []) b tok =
      .ok (LegalResource.mk (some lsubj) ldcti [] lde [] [],
           [⟨lsubj, rdfType, Obj.uri (eli "LegalResource")⟩]) ∧
    PublicOrganization.toGraph ⟨pi, none, ppl, pdcti, pti⟩ b tok =
      .ok (⟨some psubj, none, ppl, pdcti, pti⟩,
           [⟨psubj, rdfType, Obj.uri (cv "PublicOrganization")⟩]) ∧
    Evidence.toGraph ⟨evi, evdcti, evn, evde, evty, [], []⟩ b tok =
      .ok (⟨some evsubj, evdcti, evn, evde, evty, [], []⟩,
           [⟨evsubj, rdfType, Obj.uri (cpsv "Evidence")⟩]) ∧
    Event.toGraph ⟨ei, edcti, en, ede, ety, []⟩ b tok =
      .ok (⟨some esubj, edcti, en, ede, ety, []⟩,
           [⟨esubj, rdfType, Obj.uri (cpsv "Event")⟩]) ∧
    CriterionRequirement.toGraph ⟨ci, cdcti, cti, []⟩ b tok =
      .ok (⟨some csubj, cdcti, cti, []⟩,
           [⟨csubj, rdfType, Obj.uri (cv "CriterionRequirement")⟩]) ∧
    Service.toGraph ⟨sid, sti, sde, sdcti, none, [], [], spt, [], []⟩ =
      .ok [⟨sid, rdfType, Obj.uri (cpsv "PublicService")⟩] := by
  refine ⟨?_, ?_, ?_, ?_, ?_, ?_, ?_⟩
  · apply rule_toGraph_ok_iff.mpr
    refine ⟨rsubj, [⟨rsubj, rdfType, Obj.uri (cpsv "Rule")⟩], hrs, rfl, ?_, rfl⟩
    simp only [Rule.rawGraph, langSeg_of_not_truthy _ _ hr2,
      plainLitSeg_of_not_truthy _ _ hr1, langSeg_of_not_truthy _ _ hr3]
    rfl
  · apply legalResource_toGraph_ok_iff.mpr
    refine ⟨lsubj, [⟨lsubj, rdfType, Obj.uri (eli "LegalResource")⟩], hls, rfl, ?_, rfl⟩
    simp only [LegalResource.rawGraph, LegalResource.dct_identifier_mk,
      LegalResource.description_mk, LegalResource.types_mk,
      LegalResource.references_mk, LegalResource.related_mk,
      plainLitSeg_of_not_truthy _ _ hl1, langSeg_of_not_truthy _ _ hl2]
    rfl
  · apply publicOrganization_toGraph_ok_iff.mpr
    refine ⟨psubj, [⟨psubj, rdfType, Obj.uri (cv "PublicOrganization")⟩], hps, rfl, ?_, rfl⟩
    simp only [PublicOrganization.rawGraph, langSeg_of_not_truthy _ _ hp2,
      plainLitSeg_of_not_truthy _ _ hp1, langSeg_of_not_truthy _ _ hp3]
    rfl
  · apply evidence_toGraph_ok_iff.mpr
    refine ⟨evsubj, hvs, rfl, ?_⟩
    simp only [Evidence.rawGraph, plainLitSeg_of_not_truthy _ _ hv1,
      langSeg_of_not_truthy _ _ hv2, langSeg_of_not_truthy _ _ hv3,
      uriOptSeg_of_not_truthy _ _ hv4]
    rfl
  · apply event_toGraph_ok_iff.mpr
    refine ⟨esubj, hes, rfl, ?_⟩
    simp only [Event.rawGraph, plainLitSeg_of_not_truthy _ _ he1,
      langSeg_of_not_truthy _ _ he2, langSeg_of_not_truthy _ _ he3,
      uriOptSeg_of_not_truthy _ _ he4]
    rfl
  · apply criterionRequirement_toGraph_ok_iff.mpr
    refine ⟨csubj, hcs, rfl, ?_⟩
    simp only [CriterionRequirement.rawGraph, langSeg_of_not_truthy _ _ hc2,
      typedLitSeg_of_not_truthy _ _ _ hc1]
    rfl
  · apply service_toGraph_ok_iff.mpr
    refine ⟨[], [], [], [], [], rfl, rfl, rfl, rfl, rfl, ?_⟩
    rw [langSeg_of_not_truthy _ _ hs1, langSeg_of_not_truthy _ _ hs2,
      plainLitSeg_of_not_truthy _ _ hs3, typedLitSeg_of_not_truthy _ _ _ hs4]
    rfl

/-- Witness for C9: concrete entities mixing never-assigned (`none`) and
assigned-empty (`{}`, `""`, `[]`) optional attributes serialize to
exactly the type triple, with no error. -/
theorem C9_empty_attributes_emit_nothing_witness :
    Rule.toGraph ⟨some "http://example.com/rules/1", some "", some [], none, [], [], []⟩
      "http://example.com" "a" =
      .ok (⟨some "http://example.com/rules/1", some "", some [], none, [], [], []⟩,
           [⟨"http://example.com/rules/1", rdfType, Obj.uri (cpsv "Rule")⟩]) ∧
    LegalResource.toGraph (LegalResource.mk none none [] (some []) [] [])
      "http://example.com" "a" =
      .ok (LegalResource.mk (some "http://example.com/.well-known/skolem/a")
             none [] (some []) [] [],
           [⟨"http://example.com/.well-known/skolem/a", rdfType,
             Obj.uri (eli "LegalResource")⟩]) ∧
    PublicOrganization.toGraph ⟨some "http://example.com/organizations/1",
        none, none, none, some []⟩ "http://example.com" "a" =
      .ok (⟨some "http://example.com/organizations/1", none, none, none, some []⟩,
           [⟨"http://example.com/organizations/1", rdfType,
             Obj.uri (cv "PublicOrganization")⟩]) ∧
    Evidence.toGraph ⟨none, none, none, none, none, [], []⟩ "http://example.com" "a" =
      .ok (⟨some "http://example.com/.well-known/skolem/a", none, none, none, none, [], []⟩,
           [⟨"http://example.com/.well-known/skolem/a", rdfType,
             Obj.uri (cpsv "Evidence")⟩]) ∧
    Event.toGraph ⟨none, some "", none, some [], none, []⟩ "http://example.com" "a" =
      .ok (⟨some "http://example.com/.well-known/skolem/a", some "", none, some [], none, []⟩,
           [⟨"http://example.com/.well-known/skolem/a", rdfType, Obj.uri (cpsv "Event")⟩]) ∧
    CriterionRequirement.toGraph ⟨some "http://example.com/criterion-requirements/1",
        none, some [], []⟩ "http://example.com" "a" =
      .ok (⟨some "http://example.com/criterion-requirements/1", none, some [], []⟩,
           [⟨"http://example.com/criterion-requirements/1", rdfType,
             Obj.uri (cv "CriterionRequirement")⟩]) ∧
    Service.toGraph ⟨"http://example.com/services/1", some [], none, some "", none,
        [], [], none, [], []⟩ =
      .ok [⟨"http://example.com/services/1", rdfType, Obj.uri (cpsv "PublicService")⟩] :=
  C9_empty_attributes_emit_nothing "http://example.com" "a"
    (some "http://example.com/rules/1") (some "") (some []) none
    "http://example.com/rules/1" rfl rfl rfl rfl
    none none (some []) "http://example.com/.well-known/skolem/a" rfl rfl rfl
    (some "http://example.com/organizations/1") none (some []) none
    "http://example.com/organizations/1" rfl rfl rfl rfl
    none none none none none "http://example.com/.well-known/skolem/a"
    rfl rfl rfl rfl rfl
    none (some "") none none (some []) "http://example.com/.well-known/skolem/a"
    rfl rfl rfl rfl rfl
    (some "http://example.com/criterion-requirements/1") none (some [])
    "http://example.com/criterion-requirements/1" rfl rfl rfl
    "http://example.com/services/1" (some []) none (some "") none rfl rfl rfl rfl

/-- Whether an object position is a language-tagged literal. -/
def isLangLit : Obj → Bool
  | .langLit _ _ => true
  | _ => false

/-- The number of language-tagged triples of a graph carrying a given
predicate. -/
def countLangPred (g : List Triple) (P : String) : Nat :=
  (g.filter (fun x => x.pred == P && isLangLit x.obj)).length

lemma length_eq_of_nodup_mem_iff {l1 l2 : List Triple}
    (h1 : l1.Nodup) (h2 : l2.Nodup) (h : ∀ x, x ∈ l1 ↔ x ∈ l2) :
    l1.length = l2.length :=
  ((List.perm_ext_iff_of_nodup h1 h2).mpr h).length_eq

lemma langTest_true_of_mem_langSeg {subj P : String} {d : Option LangDict} {x : Triple}
    (hx : x ∈ langSeg subj P d) : (x.pred == P && isLangLit x.obj) = true := by
  rcases mem_langSeg.mp hx with ⟨m, _, kv, _, rfl⟩
  simp [isLangLit]

/-- A triple whose predicate differs from `P` is never counted by the
language-tagged-`P` filter. -/
lemma no_lang_triple {C : Prop} {x : Triple} {P Q : String} (hpred : x.pred = Q)
    (hne : Q ≠ P) (hp : (x.pred == P && isLangLit x.obj) = true) : C := by
  rw [Bool.and_eq_true, beq_iff_eq] at hp
  rw [hpred] at hp
  exact absurd hp.1 hne

lemma langSegOpt_nodup {subj pred : String} {d : Option LangDict}
    (hk : langKeysNodup d) : (langSeg subj pred d).Nodup := by
  cases d with
  | none => exact List.nodup_nil
  | some m => exact langSeg_nodup hk

lemma langSegOpt_length (subj pred : String) (d : Option LangDict) :
    (langSeg subj pred d).length = langLen d := by
  cases d with
  | none => rfl
  | some m => rw [langSeg_length, langLen]

lemma rule_toGraph_nodup {r : Rule} {b t : String} {r' : Rule} {g : List Triple}
    (h : Rule.toGraph r b t = .ok (r', g)) : g.Nodup := by
  rcases rule_toGraph_ok_iff.mp h with ⟨_, L, _, _, _, rfl⟩
  exact Graph.nodup_ofList L

lemma legalResource_toGraph_nodup {l : LegalResource} {b t : String} {l' : LegalResource}
    {g : List Triple} (h : LegalResource.toGraph l b t = .ok (l', g)) : g.Nodup := by
  rcases legalResource_toGraph_ok_iff.mp h with ⟨_, L, _, _, _, rfl⟩
  exact Graph.nodup_ofList L

lemma evidence_toGraph_nodup {e : Evidence} {b t : String} {e' : Evidence}
    {g : List Triple} (h : Evidence.toGraph e b t = .ok (e', g)) : g.Nodup := by
  rcases evidence_toGraph_ok_iff.mp h with ⟨_, _, _, rfl⟩
  exact Graph.nodup_ofList _

lemma event_toGraph_nodup {e : Event} {b t : String} {e' : Event}
    {g : List Triple} (h : Event.toGraph e b t = .ok (e', g)) : g.Nodup := by
  rcases event_toGraph_ok_iff.mp h with ⟨_, _, _, rfl⟩
  exact Graph.nodup_ofList _

lemma publicOrganization_toGraph_nodup {p : PublicOrganization} {b t : String}
    {p' : PublicOrganization} {g : List Triple}
    (h : PublicOrganization.toGraph p b t = .ok (p', g)) : g.Nodup := by
  rcases publicOrganization_toGraph_ok_iff.mp h with ⟨_, L, _, _, _, rfl⟩
  exact Graph.nodup_ofList L

lemma criterionRequirement_toGraph_nodup {c : CriterionRequirement} {b t : String}
    {c' : CriterionRequirement} {g : List Triple}
    (h : CriterionRequirement.toGraph c b t = .ok (c', g)) : g.Nodup := by
  rcases criterionRequirement_toGraph_ok_iff.mp h with ⟨_, _, _, rfl⟩
  exact Graph.nodup_ofList _

lemma service_toGraph_nodup {s : Service} {g : List Triple}
    (h : Service.toGraph s = .ok g) : g.Nodup := by
  rcases service_toGraph_ok_iff.mp h with ⟨_, _, _, _, _, _, _, _, _, _, rfl⟩
  exact Graph.nodup_ofList _

/-- Core counting lemma for a localized-text attribute: if the triples of
a duplicate-free graph matching "predicate `P` and language-tagged" are
exactly the attribute's emission, the count is the number of language
keys (0 when the attribute is unset or empty). -/
lemma countLang_eq_of_mem_iff {g : List Triple} {P : String} (subj : String)
    {d : Option LangDict}
    (hg : g.Nodup) (hk : langKeysNodup d)
    (hinto : ∀ x, x ∈ g → (x.pred == P && isLangLit x.obj) = true → x ∈ langSeg subj P d)
    (hsub : ∀ x ∈ langSeg subj P d, x ∈ g) :
    countLangPred g P = langLen d := by
  unfold countLangPred
  rw [← langSegOpt_length subj P d]
  apply length_eq_of_nodup_mem_iff (hg.filter _) (langSegOpt_nodup hk)
  intro x
  rw [List.mem_filter]
  constructor
  · rintro ⟨hx, hp⟩
    exact hinto x hx hp
  · intro hx
    exact ⟨hsub x hx, langTest_true_of_mem_langSeg hx⟩

/-- A triple built with an explicit non-matching predicate is never
counted by the language-tagged filter (used for the `RDF.type` triple). -/
lemma no_lang_triple_mk {C : Prop} {subj P Q : String} {o : Obj} (hne : Q ≠ P)
    (hp : ((⟨subj, Q, o⟩ : Triple).pred == P &&
      isLangLit (⟨subj, Q, o⟩ : Triple).obj) = true) : C :=
  no_lang_triple rfl hne hp

/-- Claim C8: for every entity kind and every localized-text attribute
(`title`, `name`, `description`, `pref_label`) the serialized graph
contains exactly N language-tagged triples for that attribute's
predicate, where N is the number of language keys, and zero when the
attribute is unset or empty — in particular for
`CriterionRequirement.title`, whose emission rule is invoked twice
within one serialization (the duplicate adds are absorbed by the
graph's set semantics). -/
theorem C8_localized_text_triple_counts
    (b t : String)
    (s : Service) (gs : List Triple) (hs : Service.toGraph s = .ok gs)
    (hk1 : langKeysNodup s.title) (hk2 : langKeysNodup s.description)
    (r : Rule) (r' : Rule) (gr : List Triple) (hr : Rule.toGraph r b t = .ok (r', gr))
    (hk3 : langKeysNodup r.title) (hk4 : langKeysNodup r.description)
    (l : LegalResource) (l' : LegalResource) (gl : List Triple)
    (hl : LegalResource.toGraph l b t = .ok (l', gl))
    (hk5 : langKeysNodup l.description)
    (p : PublicOrganization) (p' : PublicOrganization) (gp : List Triple)
    (hp : PublicOrganization.toGraph p b t = .ok (p', gp))
    (hk6 : langKeysNodup p.title) (hk7 : langKeysNodup p.pref_label)
    (ev : Evidence) (ev' : Evidence) (gev : List Triple)
    (hev : Evidence.toGraph ev b t = .ok (ev', gev))
    (hk8 : langKeysNodup ev.name) (hk9 : langKeysNodup ev.description)
    (e : Event) (e' : Event) (ge : List Triple) (he : Event.toGraph e b t = .ok (e', ge))
    (hk10 : langKeysNodup e.name) (hk11 : langKeysNodup e.description)
    (c : CriterionRequirement) (c' : CriterionRequirement) (gc : List Triple)
    (hc : CriterionRequirement.toGraph c b t = .ok (c', gc))
    (hk12 : langKeysNodup c.title) :
    countLangPred gs (dct "title") = langLen s.title ∧
    countLangPred gs (dct "description") = langLen s.description ∧
    countLangPred gr (dct "title") = langLen r.title ∧
    countLangPred gr (dct "description") = langLen r.description ∧
    countLangPred gl (dct "description") = langLen l.description ∧
    countLangPred gp (dct "title") = langLen p.title ∧
    countLangPred gp (skos "prefLabel") = langLen p.pref_label ∧
    countLangPred gev (dct "title") = langLen ev.name ∧
    countLangPred gev (dct "description") = langLen ev.description ∧
    countLangPred ge (dct "title") = langLen e.name ∧
    countLangPred ge (dct "description") = langLen e.description ∧
    countLangPred gc (dct "title") = langLen c.title := by
  rcases service_toGraph_mem hs with
    ⟨authT, followsT, legalT, inputT, groupT, hA, hF, hL, hI, hG, hmemS⟩
  have hnS := service_toGraph_nodup hs
  rcases rule_toGraph_mem hr with ⟨rsubj, implT, _, hImpl, hmemR⟩
  have hnR := rule_toGraph_nodup hr
  rcases legalResource_toGraph_mem hl with ⟨lsubj, typesT, relatedT, _, hT, hRel, hmemL⟩
  have hnL := legalResource_toGraph_nodup hl
  rcases publicOrganization_toGraph_mem hp with ⟨psubj, spatialT, _, hSp, hmemP⟩
  have hnP := publicOrganization_toGraph_nodup hp
  rcases evidence_toGraph_mem hev with ⟨evsubj, _, hmemEv⟩
  have hnEv := evidence_toGraph_nodup hev
  rcases event_toGraph_mem he with ⟨esubj, _, hmemE⟩
  have hnE := event_toGraph_nodup he
  rcases criterionRequirement_toGraph_mem hc with ⟨csubj, _, hmemC⟩
  have hnC := criterionRequirement_toGraph_nodup hc
  refine ⟨?_, ?_, ?_, ?_, ?_, ?_, ?_, ?_, ?_, ?_, ?_, ?_⟩
  · apply countLang_eq_of_mem_iff s.identifier hnS hk1
    · intro x hx hp
      rcases (hmemS x).mp hx with rfl | hx | hx | hx | hx | hx | hx | hx | hx | hx
      · exact no_lang_triple_mk (by decide) hp
      · exact hx
      · exact no_lang_triple (pred_of_mem_langSeg hx) (by decide) hp
      · exact no_lang_triple (pred_of_mem_plainLitSeg hx) (by decide) hp
      · exact no_lang_triple (pred_of_mem_refOptSeg hA hx) (by decide) hp
      · exact no_lang_triple (pred_of_mem_refListSeg hF hx) (by decide) hp
      · exact no_lang_triple (pred_of_mem_refListSeg hL hx) (by decide) hp
      · exact no_lang_triple (pred_of_mem_typedLitSeg hx) (by decide) hp
      · exact no_lang_triple (pred_of_mem_refListSeg hI hx) (by decide) hp
      · exact no_lang_triple (pred_of_mem_refListSeg hG hx) (by decide) hp
    · intro x hx
      exact (hmemS x).mpr (Or.inr (Or.inl hx))
  · apply countLang_eq_of_mem_iff s.identifier hnS hk2
    · intro x hx hp
      rcases (hmemS x).mp hx with rfl | hx | hx | hx | hx | hx | hx | hx | hx | hx
      · exact no_lang_triple_mk (by decide) hp
      · exact no_lang_triple (pred_of_mem_langSeg hx) (by decide) hp
      · exact hx
      · exact no_lang_triple (pred_of_mem_plainLitSeg hx) (by decide) hp
      · exact no_lang_triple (pred_of_mem_refOptSeg hA hx) (by decide) hp
      · exact no_lang_triple (pred_of_mem_refListSeg hF hx) (by decide) hp
      · exact no_lang_triple (pred_of_mem_refListSeg hL hx) (by decide) hp
      · exact no_lang_triple (pred_of_mem_typedLitSeg hx) (by decide) hp
      · exact no_lang_triple (pred_of_mem_refListSeg hI hx) (by decide) hp
      · exact no_lang_triple (pred_of_mem_refListSeg hG hx) (by decide) hp
    · intro x hx
      exact (hmemS x).mpr (Or.inr (Or.inr (Or.inl hx)))
  · apply countLang_eq_of_mem_iff rsubj hnR hk3
    · intro x hx hp
      rcases (hmemR x).mp hx with rfl | hx | hx | hx | hx | hx | hx
      · exact no_lang_triple_mk (by decide) hp
      · exact hx
      · exact no_lang_triple (pred_of_mem_plainLitSeg hx) (by decide) hp
      · exact no_lang_triple (pred_of_mem_langSeg hx) (by decide) hp
      · exact no_lang_triple (pred_of_mem_refListSeg hImpl hx) (by decide) hp
      · exact no_lang_triple (pred_of_mem_uriListSeg hx) (by decide) hp
      · exact no_lang_triple (pred_of_mem_uriListSeg hx) (by decide) hp
    · intro x hx
      exact (hmemR x).mpr (Or.inr (Or.inl hx))
  · apply countLang_eq_of_mem_iff rsubj hnR hk4
    · intro x hx hp
      rcases (hmemR x).mp hx with rfl | hx | hx | hx | hx | hx | hx
      · exact no_lang_triple_mk (by decide) hp
      · exact no_lang_triple (pred_of_mem_langSeg hx) (by decide) hp
      · exact no_lang_triple (pred_of_mem_plainLitSeg hx) (by decide) hp
      · exact hx
      · exact no_lang_triple (pred_of_mem_refListSeg hImpl hx) (by decide) hp
      · exact no_lang_triple (pred_of_mem_uriListSeg hx) (by decide) hp
      · exact no_lang_triple (pred_of_mem_uriListSeg hx) (by decide) hp
    · intro x hx
      exact (hmemR x).mpr (Or.inr (Or.inr (Or.inr (Or.inl hx))))
  · apply countLang_eq_of_mem_iff lsubj hnL hk5
    · intro x hx hp
      rcases (hmemL x).mp hx with rfl | hx | hx | hx | hx | hx
      · exact no_lang_triple_mk (by decide) hp
      · exact no_lang_triple (pred_of_mem_refListSeg hT hx) (by decide) hp
      · exact no_lang_triple (pred_of_mem_plainLitSeg hx) (by decide) hp
      · exact hx
      · exact no_lang_triple (pred_of_mem_uriListSeg hx) (by decide) hp
      · exact no_lang_triple (pred_of_mem_refListSeg hRel hx) (by decide) hp
    · intro x hx
      exact (hmemL x).mpr (Or.inr (Or.inr (Or.inr (Or.inl hx))))
  · apply countLang_eq_of_mem_iff psubj hnP hk6
    · intro x hx hp
      rcases (hmemP x).mp hx with rfl | hx | hx | hx | hx
      · exact no_lang_triple_mk (by decide) hp
      · exact hx
      · exact no_lang_triple (pred_of_mem_plainLitSeg hx) (by decide) hp
      · exact no_lang_triple (pred_of_mem_langSeg hx) (by decide) hp
      · exact no_lang_triple (pred_of_mem_refOptSeg hSp hx) (by decide) hp
    · intro x hx
      exact (hmemP x).mpr (Or.inr (Or.inl hx))
  · apply countLang_eq_of_mem_iff psubj hnP hk7
    · intro x hx hp
      rcases (hmemP x).mp hx with rfl | hx | hx | hx | hx
      · exact no_lang_triple_mk (by decide) hp
      · exact no_lang_triple (pred_of_mem_langSeg hx) (by decide) hp
      · exact no_lang_triple (pred_of_mem_plainLitSeg hx) (by decide) hp
      · exact hx
      · exact no_lang_triple (pred_of_mem_refOptSeg hSp hx) (by decide) hp
    · intro x hx
      exact (hmemP x).mpr (Or.inr (Or.inr (Or.inr (Or.inl hx))))
  · apply countLang_eq_of_mem_iff evsubj hnEv hk8
    · intro x hx hp
      rcases (hmemEv x).mp hx with rfl | hx | hx | hx | hx | hx | hx
      · exact no_lang_triple_mk (by decide) hp
      · exact no_lang_triple (pred_of_mem_plainLitSeg hx) (by decide) hp
      · exact hx
      · exact no_lang_triple (pred_of_mem_langSeg hx) (by decide) hp
      · exact no_lang_triple (pred_of_mem_uriOptSeg hx) (by decide) hp
      · exact no_lang_triple (pred_of_mem_uriListSeg hx) (by decide) hp
      · exact no_lang_triple (pred_of_mem_uriListSeg hx) (by decide) hp
    · intro x hx
      exact (hmemEv x).mpr (Or.inr (Or.inr (Or.inl hx)))
  · apply countLang_eq_of_mem_iff evsubj hnEv hk9
    · intro x hx hp
      rcases (hmemEv x).mp hx with rfl | hx | hx | hx | hx | hx | hx
      · exact no_lang_triple_mk (by decide) hp
      · exact no_lang_triple (pred_of_mem_plainLitSeg hx) (by decide) hp
      · exact no_lang_triple (pred_of_mem_langSeg hx) (by decide) hp
      · exact hx
      · exact no_lang_triple (pred_of_mem_uriOptSeg hx) (by decide) hp
      · exact no_lang_triple (pred_of_mem_uriListSeg hx) (by decide) hp
      · exact no_lang_triple (pred_of_mem_uriListSeg hx) (by decide) hp
    · intro x hx
      exact (hmemEv x).mpr (Or.inr (Or.inr (Or.inr (Or.inl hx))))
  · apply countLang_eq_of_mem_iff esubj hnE hk10
    · intro x hx hp
      rcases (hmemE x).mp hx with rfl | hx | hx | hx | hx | hx
      · exact no_lang_triple_mk (by decide) hp
      · exact no_lang_triple (pred_of_mem_plainLitSeg hx) (by decide) hp
      · exact hx
      · exact no_lang_triple (pred_of_mem_langSeg hx) (by decide) hp
      · exact no_lang_triple (pred_of_mem_uriOptSeg hx) (by decide) hp
      · exact no_lang_triple (pred_of_mem_uriListSeg hx) (by decide) hp
    · intro x hx
      exact (hmemE x).mpr (Or.inr (Or.inr (Or.inl hx)))
  · apply countLang_eq_of_mem_iff esubj hnE hk11
    · intro x hx hp
      rcases (hmemE x).mp hx with rfl | hx | hx | hx | hx | hx
      · exact no_lang_triple_mk (by decide) hp
      · exact no_lang_triple (pred_of_mem_plainLitSeg hx) (by decide) hp
      · exact no_lang_triple (pred_of_mem_langSeg hx) (by decide) hp
      · exact hx
      · exact no_lang_triple (pred_of_mem_uriOptSeg hx) (by decide) hp
      · exact no_lang_triple (pred_of_mem_uriListSeg hx) (by decide) hp
    · intro x hx
      exact (hmemE x).mpr (Or.inr (Or.inr (Or.inr (Or.inl hx))))
  · apply countLang_eq_of_mem_iff csubj hnC hk12
    · intro x hx hp
      rcases (hmemC x).mp hx with rfl | hx | hx | hx
      · exact no_lang_triple_mk (by decide) hp
      · exact hx
      · exact no_lang_triple (pred_of_mem_typedLitSeg hx) (by decide) hp
      · exact no_lang_triple (pred_of_mem_uriListSeg hx) (by decide) hp
    · intro x hx
      exact (hmemC x).mpr (Or.inr (Or.inl hx))

lemma langKeysNodup_of (m : LangDict) (h : (m.map Prod.fst).Nodup) :
    langKeysNodup (some m) := h

/-- Witness for C8 at concrete inputs, including the twice-invoked
`CriterionRequirement.title` rule collapsing to one triple per key. -/
theorem C8_localized_text_triple_counts_witness :
    countLangPred [⟨"http://example.com/services/1", rdfType, Obj.uri (cpsv "PublicService")⟩,
        ⟨"http://example.com/services/1", dct "title", Obj.langLit "Service 1" "en"⟩,
        ⟨"http://example.com/services/1", dct "title", Obj.langLit "Tjeneste 1" "nb"⟩]
      (dct "title") = 2 ∧
    countLangPred [⟨"http://example.com/services/1", rdfType, Obj.uri (cpsv "PublicService")⟩,
        ⟨"http://example.com/services/1", dct "title", Obj.langLit "Service 1" "en"⟩,
        ⟨"http://example.com/services/1", dct "title", Obj.langLit "Tjeneste 1" "nb"⟩]
      (dct "description") = 0 ∧
    countLangPred [⟨"http://example.com/rules/1", rdfType, Obj.uri (cpsv "Rule")⟩,
        ⟨"http://example.com/rules/1", dct "description", Obj.langLit "Rule 1 description" "en"⟩]
      (dct "title") = 0 ∧
    countLangPred [⟨"http://example.com/rules/1", rdfType, Obj.uri (cpsv "Rule")⟩,
        ⟨"http://example.com/rules/1", dct "description", Obj.langLit "Rule 1 description" "en"⟩]
      (dct "description") = 1 ∧
    countLangPred [⟨"http://example.com/legalresources/1", rdfType,
          Obj.uri (eli "LegalResource")⟩,
        ⟨"http://example.com/legalresources/1", dct "description",
          Obj.langLit "LegalResource 1 description" "en"⟩]
      (dct "description") = 1 ∧
    countLangPred [⟨"http://example.com/organizations/1", rdfType,
          Obj.uri (cv "PublicOrganization")⟩,
        ⟨"http://example.com/organizations/1", skos "prefLabel",
          Obj.langLit "Organization 1" "en"⟩]
      (dct "title") = 0 ∧
    countLangPred [⟨"http://example.com/organizations/1", rdfType,
          Obj.uri (cv "PublicOrganization")⟩,
        ⟨"http://example.com/organizations/1", skos "prefLabel",
          Obj.langLit "Organization 1" "en"⟩]
      (skos "prefLabel") = 1 ∧
    countLangPred [⟨"http://example.com/evidences/1", rdfType, Obj.uri (cpsv "Evidence")⟩,
        ⟨"http://example.com/evidences/1", dct "title", Obj.langLit "Evidence 1" "en"⟩,
        ⟨"http://example.com/evidences/1", dct "title", Obj.langLit "Bevis 1" "nb"⟩]
      (dct "title") = 2 ∧
    countLangPred [⟨"http://example.com/evidences/1", rdfType, Obj.uri (cpsv "Evidence")⟩,
        ⟨"http://example.com/evidences/1", dct "title", Obj.langLit "Evidence 1" "en"⟩,
        ⟨"http://example.com/evidences/1", dct "title", Obj.langLit "Bevis 1" "nb"⟩]
      (dct "description") = 0 ∧
    countLangPred [⟨"http://example.com/events/1", rdfType, Obj.uri (cpsv "Event")⟩,
        ⟨"http://example.com/events/1", dct "description", Obj.langLit "Event 1 description" "en"⟩]
      (dct "title") = 0 ∧
    countLangPred [⟨"http://example.com/events/1", rdfType, Obj.uri (cpsv "Event")⟩,
        ⟨"http://example.com/events/1", dct "description", Obj.langLit "Event 1 description" "en"⟩]
      (dct "description") = 1 ∧
    countLangPred [⟨"http://example.com/criterion-requirements/1", rdfType,
          Obj.uri (cv "CriterionRequirement")⟩,
        ⟨"http://example.com/criterion-requirements/1", dct "title",
          Obj.langLit "Over 20 aar" "nb"⟩]
      (dct "title") = 1 :=
  C8_localized_text_triple_counts "http://example.com" "tok"
    ⟨"http://example.com/services/1", some [("en", "Service 1"), ("nb", "Tjeneste 1")],
      none, none, none, [], [], none, [], []⟩ _ rfl
    (langKeysNodup_of _ (by decide)) trivial
    ⟨some "http://example.com/rules/1", none, none,
      some [("en", "Rule 1 description")], [], [], []⟩ _ _ rfl trivial
    (langKeysNodup_of _ (by decide))
    (LegalResource.mk (some "http://example.com/legalresources/1") none []
      (some [("en", "LegalResource 1 description")]) [] []) _ _ rfl
    (langKeysNodup_of _ (by decide))
    ⟨some "http://example.com/organizations/1", none, some [("en", "Organization 1")],
      none, none⟩ _ _ rfl trivial (langKeysNodup_of _ (by decide))
    ⟨some "http://example.com/evidences/1", none,
      some [("en", "Evidence 1"), ("nb", "Bevis 1")], none, none, [], []⟩ _ _ rfl
    (langKeysNodup_of _ (by decide)) trivial
    ⟨some "http://example.com/events/1", none, none,
      some [("en", "Event 1 description")], none, []⟩ _ _ rfl trivial
    (langKeysNodup_of _ (by decide))
    ⟨some "http://example.com/criterion-requirements/1", none,
      some [("nb", "Over 20 aar")], []⟩ _ _ rfl (langKeysNodup_of _ (by decide))

/-- Two different predicates for the same triple are contradictory. -/
lemma pred_clash {C : Prop} {x : Triple} {P Q : String} (h1 : x.pred = P)
    (h2 : x.pred = Q) (hne : P ≠ Q) : C :=
  absurd (h1.symm.trans h2) hne

/-- The `RDF.type` triple's predicate clashes with any other predicate. -/
lemma pred_clash_mk {C : Prop} {subj P Q : String} {o : Obj}
    (h2 : (⟨subj, Q, o⟩ : Triple).pred = P) (hne : Q ≠ P) : C :=
  absurd h2 hne

/-- Claim C7: `dct_identifier` is emitted as a plain (untyped, untagged)
string literal by Service, Rule, LegalResource, PublicOrganization,
Evidence and Event, and as an `xsd:anyURI`-typed literal by
CriterionRequirement — for each kind, every `dct:identifier` triple of
the serialized graph carries exactly that literal form of the stored
`dct_identifier` value, and a truthy `dct_identifier` produces such a
triple with the entity's resolved identifier as subject. -/
theorem C7_dct_identifier_per_kind_literal_form
    (b t : String)
    (s : Service) (gs : List Triple) (hs : Service.toGraph s = .ok gs)
    (r : Rule) (r' : Rule) (gr : List Triple) (hr : Rule.toGraph r b t = .ok (r', gr))
    (l : LegalResource) (l' : LegalResource) (gl : List Triple)
    (hl : LegalResource.toGraph l b t = .ok (l', gl))
    (p : PublicOrganization) (p' : PublicOrganization) (gp : List Triple)
    (hp : PublicOrganization.toGraph p b t = .ok (p', gp))
    (ev : Evidence) (ev' : Evidence) (gev : List Triple)
    (hev : Evidence.toGraph ev b t = .ok (ev', gev))
    (e : Event) (e' : Event) (ge : List Triple) (he : Event.toGraph e b t = .ok (e', ge))
    (c : CriterionRequirement) (c' : CriterionRequirement) (gc : List Triple)
    (hc : CriterionRequirement.toGraph c b t = .ok (c', gc)) :
    ((∀ x ∈ gs, x.pred = dct "identifier" →
        ∃ v, s.dct_identifier = some v ∧ x.obj = Obj.lit v) ∧
      (∀ v, s.dct_identifier = some v → v ≠ "" →
        ⟨s.identifier, dct "identifier", Obj.lit v⟩ ∈ gs)) ∧
    ((∀ x ∈ gr, x.pred = dct "identifier" →
        ∃ v, r.dct_identifier = some v ∧ x.obj = Obj.lit v) ∧
      (∀ v, r.dct_identifier = some v → v ≠ "" →
        ∃ subj, r'.identifier = some subj ∧ ⟨subj, dct "identifier", Obj.lit v⟩ ∈ gr)) ∧
    ((∀ x ∈ gl, x.pred = dct "identifier" →
        ∃ v, l.dct_identifier = some v ∧ x.obj = Obj.lit v) ∧
      (∀ v, l.dct_identifier = some v → v ≠ "" →
        ∃ subj, l'.identifier = some subj ∧ ⟨subj, dct "identifier", Obj.lit v⟩ ∈ gl)) ∧
    ((∀ x ∈ gp, x.pred = dct "identifier" →
        ∃ v, p.dct_identifier = some v ∧ x.obj = Obj.lit v) ∧
      (∀ v, p.dct_identifier = some v → v ≠ "" →
        ∃ subj, p'.identifier = some subj ∧ ⟨subj, dct "identifier", Obj.lit v⟩ ∈ gp)) ∧
    ((∀ x ∈ gev, x.pred = dct "identifier" →
        ∃ v, ev.dct_identifier = some v ∧ x.obj = Obj.lit v) ∧
      (∀ v, ev.dct_identifier = some v → v ≠ "" →
        ∃ subj, ev'.identifier = some subj ∧ ⟨subj, dct "identifier", Obj.lit v⟩ ∈ gev)) ∧
    ((∀ x ∈ ge, x.pred = dct "identifier" →
        ∃ v, e.dct_identifier = some v ∧ x.obj = Obj.lit v) ∧
      (∀ v, e.dct_identifier = some v → v ≠ "" →
        ∃ subj, e'.identifier = some subj ∧ ⟨subj, dct "identifier", Obj.lit v⟩ ∈ ge)) ∧
    ((∀ x ∈ gc, x.pred = dct "identifier" →
        ∃ v, c.dct_identifier = some v ∧ x.obj = Obj.typedLit v (xsd "anyURI")) ∧
      (∀ v, c.dct_identifier = some v → v ≠ "" →
        ∃ subj, c'.identifier = some subj ∧
          ⟨subj, dct "identifier", Obj.typedLit v (xsd "anyURI")⟩ ∈ gc)) := by
  rcases service_toGraph_mem hs with
    ⟨authT, followsT, legalT, inputT, groupT, hA, hF, hL, hI, hG, hmemS⟩
  rcases rule_toGraph_mem hr with ⟨rsubj, implT, hidR, hImpl, hmemR⟩
  rcases legalResource_toGraph_mem hl with ⟨lsubj, typesT, relatedT, hidL, hT, hRel, hmemL⟩
  rcases publicOrganization_toGraph_mem hp with ⟨psubj, spatialT, hidP, hSp, hmemP⟩
  rcases evidence_toGraph_mem hev with ⟨evsubj, hidEv, hmemEv⟩
  rcases event_toGraph_mem he with ⟨esubj, hidE, hmemE⟩
  rcases criterionRequirement_toGraph_mem hc with ⟨csubj, hidC, hmemC⟩
  refine ⟨⟨?_, ?_⟩, ⟨?_, ?_⟩, ⟨?_, ?_⟩, ⟨?_, ?_⟩, ⟨?_, ?_⟩, ⟨?_, ?_⟩, ⟨?_, ?_⟩⟩
  · intro x hx hpred
    rcases (hmemS x).mp hx with rfl | hx | hx | hx | hx | hx | hx | hx | hx | hx
    · exact pred_clash_mk hpred (by decide)
    · exact pred_clash (pred_of_mem_langSeg hx) hpred (by decide)
    · exact pred_clash (pred_of_mem_langSeg hx) hpred (by decide)
    · rcases mem_plainLitSeg.mp hx with ⟨v, hv, _, rfl⟩
      exact ⟨v, hv, rfl⟩
    · exact pred_clash (pred_of_mem_refOptSeg hA hx) hpred (by decide)
    · exact pred_clash (pred_of_mem_refListSeg hF hx) hpred (by decide)
    · exact pred_clash (pred_of_mem_refListSeg hL hx) hpred (by decide)
    · exact pred_clash (pred_of_mem_typedLitSeg hx) hpred (by decide)
    · exact pred_clash (pred_of_mem_refListSeg hI hx) hpred (by decide)
    · exact pred_clash (pred_of_mem_refListSeg hG hx) hpred (by decide)
  · intro v hv hne
    exact (hmemS _).mpr (Or.inr (Or.inr (Or.inr (Or.inl
      (mem_plainLitSeg.mpr ⟨v, hv, hne, rfl⟩)))))
  · intro x hx hpred
    rcases (hmemR x).mp hx with rfl | hx | hx | hx | hx | hx | hx
    · exact pred_clash_mk hpred (by decide)
    · exact pred_clash (pred_of_mem_langSeg hx) hpred (by decide)
    · rcases mem_plainLitSeg.mp hx with ⟨v, hv, _, rfl⟩
      exact ⟨v, hv, rfl⟩
    · exact pred_clash (pred_of_mem_langSeg hx) hpred (by decide)
    · exact pred_clash (pred_of_mem_refListSeg hImpl hx) hpred (by decide)
    · exact pred_clash (pred_of_mem_uriListSeg hx) hpred (by decide)
    · exact pred_clash (pred_of_mem_uriListSeg hx) hpred (by decide)
  · intro v hv hne
    exact ⟨rsubj, hidR, (hmemR _).mpr (Or.inr (Or.inr (Or.inl
      (mem_plainLitSeg.mpr ⟨v, hv, hne, rfl⟩))))⟩
  · intro x hx hpred
    rcases (hmemL x).mp hx with rfl | hx | hx | hx | hx | hx
    · exact pred_clash_mk hpred (by decide)
    · exact pred_clash (pred_of_mem_refListSeg hT hx) hpred (by decide)
    · rcases mem_plainLitSeg.mp hx with ⟨v, hv, _, rfl⟩
      exact ⟨v, hv, rfl⟩
    · exact pred_clash (pred_of_mem_langSeg hx) hpred (by decide)
    · exact pred_clash (pred_of_mem_uriListSeg hx) hpred (by decide)
    · exact pred_clash (pred_of_mem_refListSeg hRel hx) hpred (by decide)
  · intro v hv hne
    exact ⟨lsubj, hidL, (hmemL _).mpr (Or.inr (Or.inr (Or.inl
      (mem_plainLitSeg.mpr ⟨v, hv, hne, rfl⟩))))⟩
  · intro x hx hpred
    rcases (hmemP x).mp hx with rfl | hx | hx | hx | hx
    · exact pred_clash_mk hpred (by decide)
    · exact pred_clash (pred_of_mem_langSeg hx) hpred (by decide)
    · rcases mem_plainLitSeg.mp hx with ⟨v, hv, _, rfl⟩
      exact ⟨v, hv, rfl⟩
    · exact pred_clash (pred_of_mem_langSeg hx) hpred (by decide)
    · exact pred_clash (pred_of_mem_refOptSeg hSp hx) hpred (by decide)
  · intro v hv hne
    exact ⟨psubj, hidP, (hmemP _).mpr (Or.inr (Or.inr (Or.inl
      (mem_plainLitSeg.mpr ⟨v, hv, hne, rfl⟩))))⟩
  · intro x hx hpred
    rcases (hmemEv x).mp hx with rfl | hx | hx | hx | hx | hx | hx
    · exact pred_clash_mk hpred (by decide)
    · rcases mem_plainLitSeg.mp hx with ⟨v, hv, _, rfl⟩
      exact ⟨v, hv, rfl⟩
    · exact pred_clash (pred_of_mem_langSeg hx) hpred (by decide)
    · exact pred_clash (pred_of_mem_langSeg hx) hpred (by decide)
    · exact pred_clash (pred_of_mem_uriOptSeg hx) hpred (by decide)
    · exact pred_clash (pred_of_mem_uriListSeg hx) hpred (by decide)
    · exact pred_clash (pred_of_mem_uriListSeg hx) hpred (by decide)
  · intro v hv hne
    exact ⟨evsubj, hidEv, (hmemEv _).mpr (Or.inr (Or.inl
      (mem_plainLitSeg.mpr ⟨v, hv, hne, rfl⟩)))⟩
  · intro x hx hpred
    rcases (hmemE x).mp hx with rfl | hx | hx | hx | hx | hx
    · exact pred_clash_mk hpred (by decide)
    · rcases mem_plainLitSeg.mp hx with ⟨v, hv, _, rfl⟩
      exact ⟨v, hv, rfl⟩
    · exact pred_clash (pred_of_mem_langSeg hx) hpred (by decide)
    · exact pred_clash (pred_of_mem_langSeg hx) hpred (by decide)
    · exact pred_clash (pred_of_mem_uriOptSeg hx) hpred (by decide)
    · exact pred_clash (pred_of_mem_uriListSeg hx) hpred (by decide)
  · intro v hv hne
    exact ⟨esubj, hidE, (hmemE _).mpr (Or.inr (Or.inl
      (mem_plainLitSeg.mpr ⟨v, hv, hne, rfl⟩)))⟩
  · intro x hx hpred
    rcases (hmemC x).mp hx with rfl | hx | hx | hx
    · exact pred_clash_mk hpred (by decide)
    · exact pred_clash (pred_of_mem_langSeg hx) hpred (by decide)
    · rcases mem_typedLitSeg.mp hx with ⟨v, hv, _, rfl⟩
      exact ⟨v, hv, rfl⟩
    · exact pred_clash (pred_of_mem_uriListSeg hx) hpred (by decide)
  · intro v hv hne
    exact ⟨csubj, hidC, (hmemC _).mpr (Or.inr (Or.inr (Or.inl
      (mem_typedLitSeg.mpr ⟨v, hv, hne, rfl⟩))))⟩

/-- Witness for C7 at concrete inputs: a Service emits `dct:identifier`
as a plain literal, a CriterionRequirement as an `xsd:anyURI`-typed
literal. -/
theorem C7_dct_identifier_per_kind_literal_form_witness :
    (⟨"http://example.com/services/1", dct "identifier",
      Obj.lit "https://unique.uri.com"⟩ : Triple) ∈
      Graph.ofList [⟨"http://example.com/services/1", rdfType,
          Obj.uri (cpsv "PublicService")⟩,
        ⟨"http://example.com/services/1", dct "identifier",
          Obj.lit "https://unique.uri.com"⟩] ∧
    (⟨"http://example.com/criterion-requirements/1", dct "identifier",
      Obj.typedLit "https://unique.uri.com" (xsd "anyURI")⟩ : Triple) ∈
      Graph.ofList [⟨"http://example.com/criterion-requirements/1", rdfType,
          Obj.uri (cv "CriterionRequirement")⟩,
        ⟨"http://example.com/criterion-requirements/1", dct "identifier",
          Obj.typedLit "https://unique.uri.com" (xsd "anyURI")⟩] := by
  have h := C7_dct_identifier_per_kind_literal_form "http://example.com" "tok"
    ⟨"http://example.com/services/1", none, none, some "https://unique.uri.com",
      none, [], [], none, [], []⟩ _ rfl
    ⟨some "http://example.com/rules/1", some "https://unique.uri.com", none, none,
      [], [], []⟩ _ _ rfl
    (LegalResource.mk (some "http://example.com/legalresources/1")
      (some "https://unique.uri.com") [] none [] []) _ _ rfl
    ⟨some "http://example.com/organizations/1", none, none,
      some "https://unique.uri.com", none⟩ _ _ rfl
    ⟨some "http://example.com/evidences/1", some "https://unique.uri.com",
      none, none, none, [], []⟩ _ _ rfl
    ⟨some "http://example.com/events/1", some "https://unique.uri.com",
      none, none, none, []⟩ _ _ rfl
    ⟨some "http://example.com/criterion-requirements/1",
      some "https://unique.uri.com", none, []⟩ _ _ rfl
  refine ⟨h.1.2 "https://unique.uri.com" rfl (by decide), ?_⟩
  rcases h.2.2.2.2.2.2.2 "https://unique.uri.com" rfl (by decide) with ⟨subj, hid, hmem⟩
  have hid2 : some "http://example.com/criterion-requirements/1" = some subj := hid
  cases Option.some.inj hid2
  exact hmem

/-- Claim C5: for every entity and every reference-list attribute, the
serialized graph contains exactly one link triple per list element, with
the referenced entity's own identifier (or the bare URI element) as
object, and no triples describing the referenced entity's other
attributes.  Formalized, for arbitrary entities of all seven kinds: every
triple of a serialized graph has the serializing entity's own resolved
identifier as subject (so referents are linked, never embedded), and for
each reference-list attribute — `Rule.implements`/`languages`/`types`,
`Service.follows`/`has_legal_resources`/`has_input`/`is_grouped_by`,
`LegalResource.types`/`related`/`references`,
`Evidence.related_documentation`/`languages`, `Event.related_service`,
`CriterionRequirement.types` — the triples with that attribute's
predicate are exactly the links to the elements' identifiers (or the
bare URI elements), in both directions; finally, the concrete
two-element scenario: a `Rule` with two `implements` entries yields a
graph with exactly two `cpsv:implements` triples whose objects are the
two legal resources' identifiers and no further triples. -/
theorem C5_reference_lists_link_only
    (b t : String)
    (r : Rule) (r' : Rule) (g : List Triple) (hr : Rule.toGraph r b t = .ok (r', g))
    (s : Service) (gs : List Triple) (hs : Service.toGraph s = .ok gs)
    (l : LegalResource) (l' : LegalResource) (gl : List Triple)
    (hl : LegalResource.toGraph l b t = .ok (l', gl))
    (ev : Evidence) (ev' : Evidence) (gev : List Triple)
    (hev : Evidence.toGraph ev b t = .ok (ev', gev))
    (e : Event) (e' : Event) (ge : List Triple) (he : Event.toGraph e b t = .ok (e', ge))
    (p : PublicOrganization) (p' : PublicOrganization) (gp : List Triple)
    (hp : PublicOrganization.toGraph p b t = .ok (p', gp))
    (c : CriterionRequirement) (c' : CriterionRequirement) (gc : List Triple)
    (hc : CriterionRequirement.toGraph c b t = .ok (c', gc)) :
    (∃ subj, r'.identifier = some subj ∧
      (∀ x ∈ g, x.subj = subj) ∧
      (∀ x ∈ g, x.pred = cpsv "implements" →
        ∃ lr ∈ r.implements, ∃ u, getSlot lr.identifier = .ok u ∧
          x = ⟨subj, cpsv "implements", Obj.uri u⟩) ∧
      (∀ lr ∈ r.implements, ∀ u, getSlot lr.identifier = .ok u →
        ⟨subj, cpsv "implements", Obj.uri u⟩ ∈ g) ∧
      (∀ x ∈ g, x.pred = dct "language" →
        ∃ u ∈ r.languages, x = ⟨subj, dct "language", Obj.uri u⟩) ∧
      (∀ u ∈ r.languages, ⟨subj, dct "language", Obj.uri u⟩ ∈ g) ∧
      (∀ x ∈ g, x.pred = dct "type" →
        ∃ u ∈ r.types, x = ⟨subj, dct "type", Obj.uri u⟩) ∧
      (∀ u ∈ r.types, ⟨subj, dct "type", Obj.uri u⟩ ∈ g)) ∧
    ((∀ x ∈ gs, x.subj = s.identifier) ∧
      (∀ x ∈ gs, x.pred = cpsv "follows" →
        ∃ ru ∈ s.follows, ∃ u, getSlot ru.identifier = .ok u ∧
          x = ⟨s.identifier, cpsv "follows", Obj.uri u⟩) ∧
      (∀ ru ∈ s.follows, ∀ u, getSlot ru.identifier = .ok u →
        ⟨s.identifier, cpsv "follows", Obj.uri u⟩ ∈ gs) ∧
      (∀ x ∈ gs, x.pred = cv "hasLegalResource" →
        ∃ lr ∈ s.has_legal_resources, ∃ u, getSlot lr.identifier = .ok u ∧
          x = ⟨s.identifier, cv "hasLegalResource", Obj.uri u⟩) ∧
      (∀ lr ∈ s.has_legal_resources, ∀ u, getSlot lr.identifier = .ok u →
        ⟨s.identifier, cv "hasLegalResource", Obj.uri u⟩ ∈ gs) ∧
      (∀ x ∈ gs, x.pred = cpsv "hasInput" →
        ∃ evd ∈ s.has_input, ∃ u, getSlot evd.identifier = .ok u ∧
          x = ⟨s.identifier, cpsv "hasInput", Obj.uri u⟩) ∧
      (∀ evd ∈ s.has_input, ∀ u, getSlot evd.identifier = .ok u →
        ⟨s.identifier, cpsv "hasInput", Obj.uri u⟩ ∈ gs) ∧
      (∀ x ∈ gs, x.pred = cv "isGroupedBy" →
        ∃ evt ∈ s.is_grouped_by, ∃ u, getSlot evt.identifier = .ok u ∧
          x = ⟨s.identifier, cv "isGroupedBy", Obj.uri u⟩) ∧
      (∀ evt ∈ s.is_grouped_by, ∀ u, getSlot evt.identifier = .ok u →
        ⟨s.identifier, cv "isGroupedBy", Obj.uri u⟩ ∈ gs)) ∧
    (∃ subj, l'.identifier = some subj ∧
      (∀ x ∈ gl, x.subj = subj) ∧
      (∀ x ∈ gl, x.pred = dct "type" →
        ∃ rt ∈ l.types, ∃ u, getSlot rt.identifier = .ok u ∧
          x = ⟨subj, dct "type", Obj.uri u⟩) ∧
      (∀ rt ∈ l.types, ∀ u, getSlot rt.identifier = .ok u →
        ⟨subj, dct "type", Obj.uri u⟩ ∈ gl) ∧
      (∀ x ∈ gl, x.pred = dct "relation" →
        ∃ lr ∈ l.related, ∃ u, getSlot lr.identifier = .ok u ∧
          x = ⟨subj, dct "relation", Obj.uri u⟩) ∧
      (∀ lr ∈ l.related, ∀ u, getSlot lr.identifier = .ok u →
        ⟨subj, dct "relation", Obj.uri u⟩ ∈ gl) ∧
      (∀ x ∈ gl, x.pred = rdfs "seeAlso" →
        ∃ u ∈ l.references, x = ⟨subj, rdfs "seeAlso", Obj.uri u⟩) ∧
      (∀ u ∈ l.references, ⟨subj, rdfs "seeAlso", Obj.uri u⟩ ∈ gl)) ∧
    (∃ subj, ev'.identifier = some subj ∧
      (∀ x ∈ gev, x.subj = subj) ∧
      (∀ x ∈ gev, x.pred = foaf "page" →
        ∃ u ∈ ev.related_documentation, x = ⟨subj, foaf "page", Obj.uri u⟩) ∧
      (∀ u ∈ ev.related_documentation, ⟨subj, foaf "page", Obj.uri u⟩ ∈ gev) ∧
      (∀ x ∈ gev, x.pred = dct "language" →
        ∃ u ∈ ev.languages, x = ⟨subj, dct "language", Obj.uri u⟩) ∧
      (∀ u ∈ ev.languages, ⟨subj, dct "language", Obj.uri u⟩ ∈ gev)) ∧
    (∃ subj, e'.identifier = some subj ∧
      (∀ x ∈ ge, x.subj = subj) ∧
      (∀ x ∈ ge, x.pred = dct "relation" →
        ∃ u ∈ e.related_service, x = ⟨subj, dct "relation", Obj.uri u⟩) ∧
      (∀ u ∈ e.related_service, ⟨subj, dct "relation", Obj.uri u⟩ ∈ ge)) ∧
    (∃ subj, p'.identifier = some subj ∧ ∀ x ∈ gp, x.subj = subj) ∧
    (∃ subj, c'.identifier = some subj ∧
      (∀ x ∈ gc, x.subj = subj) ∧
      (∀ x ∈ gc, x.pred = dct "type" →
        ∃ u ∈ c.types, x = ⟨subj, dct "type", Obj.uri u⟩) ∧
      (∀ u ∈ c.types, ⟨subj, dct "type", Obj.uri u⟩ ∈ gc)) ∧
    (Rule.toGraph { Rule.init (some "http://example.com/rules/1") with
        implements := [LegalResource.init (some "https://example.com/legalresources/1"),
          LegalResource.init (some "https://example.com/legalresources/2")] }
        "http://example.com" "tok" =
      .ok ({ Rule.init (some "http://example.com/rules/1") with
              implements := [LegalResource.init (some "https://example.com/legalresources/1"),
                LegalResource.init (some "https://example.com/legalresources/2")] },
           [⟨"http://example.com/rules/1", rdfType, Obj.uri (cpsv "Rule")⟩,
            ⟨"http://example.com/rules/1", cpsv "implements",
              Obj.uri "https://example.com/legalresources/1"⟩,
            ⟨"http://example.com/rules/1", cpsv "implements",
              Obj.uri "https://example.com/legalresources/2"⟩]) ∧
      countPred [⟨"http://example.com/rules/1", rdfType, Obj.uri (cpsv "Rule")⟩,
          ⟨"http://example.com/rules/1", cpsv "implements",
            Obj.uri "https://example.com/legalresources/1"⟩,
          ⟨"http://example.com/rules/1", cpsv "implements",
            Obj.uri "https://example.com/legalresources/2"⟩] (cpsv "implements") = 2) := by
  refine ⟨?_, ?_, ?_, ?_, ?_, ?_, ?_, rfl, rfl⟩
  · rcases rule_toGraph_mem hr with ⟨subj, implT, hidR, hImpl, hmemR⟩
    rcases rule_toGraph_subj hr with ⟨subj2, hid2, hsubj⟩
    rw [hidR] at hid2
    cases Option.some.inj hid2
    refine ⟨subj, hidR, hsubj, ?_, ?_, ?_, ?_, ?_, ?_⟩
    · intro x hx hpred
      rcases (hmemR x).mp hx with rfl | hx | hx | hx | hx | hx | hx
      · exact pred_clash_mk hpred (by decide)
      · exact pred_clash (pred_of_mem_langSeg hx) hpred (by decide)
      · exact pred_clash (pred_of_mem_plainLitSeg hx) hpred (by decide)
      · exact pred_clash (pred_of_mem_langSeg hx) hpred (by decide)
      · rcases (refListSeg_ok_mem hImpl x).mp hx with ⟨lr, hlr, u, hu, rfl⟩
        exact ⟨lr, hlr, u, hu, rfl⟩
      · exact pred_clash (pred_of_mem_uriListSeg hx) hpred (by decide)
      · exact pred_clash (pred_of_mem_uriListSeg hx) hpred (by decide)
    · intro lr hlr u hu
      exact (hmemR _).mpr (Or.inr (Or.inr (Or.inr (Or.inr (Or.inl
        ((refListSeg_ok_mem hImpl _).mpr ⟨lr, hlr, u, hu, rfl⟩))))))
    · intro x hx hpred
      rcases (hmemR x).mp hx with rfl | hx | hx | hx | hx | hx | hx
      · exact pred_clash_mk hpred (by decide)
      · exact pred_clash (pred_of_mem_langSeg hx) hpred (by decide)
      · exact pred_clash (pred_of_mem_plainLitSeg hx) hpred (by decide)
      · exact pred_clash (pred_of_mem_langSeg hx) hpred (by decide)
      · exact pred_clash (pred_of_mem_refListSeg hImpl hx) hpred (by decide)
      · rcases mem_uriListSeg.mp hx with ⟨u, hu, rfl⟩
        exact ⟨u, hu, rfl⟩
      · exact pred_clash (pred_of_mem_uriListSeg hx) hpred (by decide)
    · intro u hu
      exact (hmemR _).mpr (Or.inr (Or.inr (Or.inr (Or.inr (Or.inr (Or.inl
        (mem_uriListSeg.mpr ⟨u, hu, rfl⟩)))))))
    · intro x hx hpred
      rcases (hmemR x).mp hx with rfl | hx | hx | hx | hx | hx | hx
      · exact pred_clash_mk hpred (by decide)
      · exact pred_clash (pred_of_mem_langSeg hx) hpred (by decide)
      · exact pred_clash (pred_of_mem_plainLitSeg hx) hpred (by decide)
      · exact pred_clash (pred_of_mem_langSeg hx) hpred (by decide)
      · exact pred_clash (pred_of_mem_refListSeg hImpl hx) hpred (by decide)
      · exact pred_clash (pred_of_mem_uriListSeg hx) hpred (by decide)
      · rcases mem_uriListSeg.mp hx with ⟨u, hu, rfl⟩
        exact ⟨u, hu, rfl⟩
    · intro u hu
      exact (hmemR _).mpr (Or.inr (Or.inr (Or.inr (Or.inr (Or.inr (Or.inr
        (mem_uriListSeg.mpr ⟨u, hu, rfl⟩)))))))
  · rcases service_toGraph_mem hs with
      ⟨authT, followsT, legalT, inputT, groupT, hA, hF, hL, hI, hG, hmemS⟩
    refine ⟨service_toGraph_subj hs, ?_, ?_, ?_, ?_, ?_, ?_, ?_, ?_⟩
    · intro x hx hpred
      rcases (hmemS x).mp hx with rfl | hx | hx | hx | hx | hx | hx | hx | hx | hx
      · exact pred_clash_mk hpred (by decide)
      · exact pred_clash (pred_of_mem_langSeg hx) hpred (by decide)
      · exact pred_clash (pred_of_mem_langSeg hx) hpred (by decide)
      · exact pred_clash (pred_of_mem_plainLitSeg hx) hpred (by decide)
      · exact pred_clash (pred_of_mem_refOptSeg hA hx) hpred (by decide)
      · rcases (refListSeg_ok_mem hF x).mp hx with ⟨ru, hru, u, hu, rfl⟩
        exact ⟨ru, hru, u, hu, rfl⟩
      · exact pred_clash (pred_of_mem_refListSeg hL hx) hpred (by decide)
      · exact pred_clash (pred_of_mem_typedLitSeg hx) hpred (by decide)
      · exact pred_clash (pred_of_mem_refListSeg hI hx) hpred (by decide)
      · exact pred_clash (pred_of_mem_refListSeg hG hx) hpred (by decide)
    · intro ru hru u hu
      exact (hmemS _).mpr (Or.inr (Or.inr (Or.inr (Or.inr (Or.inr (Or.inl
        ((refListSeg_ok_mem hF _).mpr ⟨ru, hru, u, hu, rfl⟩)))))))
    · intro x hx hpred
      rcases (hmemS x).mp hx with rfl | hx | hx | hx | hx | hx | hx | hx | hx | hx
      · exact pred_clash_mk hpred (by decide)
      · exact pred_clash (pred_of_mem_langSeg hx) hpred (by decide)
      · exact pred_clash (pred_of_mem_langSeg hx) hpred (by decide)
      · exact pred_clash (pred_of_mem_plainLitSeg hx) hpred (by decide)
      · exact pred_clash (pred_of_mem_refOptSeg hA hx) hpred (by decide)
      · exact pred_clash (pred_of_mem_refListSeg hF hx) hpred (by decide)
      · rcases (refListSeg_ok_mem hL x).mp hx with ⟨lr, hlr, u, hu, rfl⟩
        exact ⟨lr, hlr, u, hu, rfl⟩
      · exact pred_clash (pred_of_mem_typedLitSeg hx) hpred (by decide)
      · exact pred_clash (pred_of_mem_refListSeg hI hx) hpred (by decide)
      · exact pred_clash (pred_of_mem_refListSeg hG hx) hpred (by decide)
    · intro lr hlr u hu
      exact (hmemS _).mpr (Or.inr (Or.inr (Or.inr (Or.inr (Or.inr (Or.inr (Or.inl
        ((refListSeg_ok_mem hL _).mpr ⟨lr, hlr, u, hu, rfl⟩))))))))
    · intro x hx hpred
      rcases (hmemS x).mp hx with rfl | hx | hx | hx | hx | hx | hx | hx | hx | hx
      · exact pred_clash_mk hpred (by decide)
      · exact pred_clash (pred_of_mem_langSeg hx) hpred (by decide)
      · exact pred_clash (pred_of_mem_langSeg hx) hpred (by decide)
      · exact pred_clash (pred_of_mem_plainLitSeg hx) hpred (by decide)
      · exact pred_clash (pred_of_mem_refOptSeg hA hx) hpred (by decide)
      · exact pred_clash (pred_of_mem_refListSeg hF hx) hpred (by decide)
      · exact pred_clash (pred_of_mem_refListSeg hL hx) hpred (by decide)
      · exact pred_clash (pred_of_mem_typedLitSeg hx) hpred (by decide)
      · rcases (refListSeg_ok_mem hI x).mp hx with ⟨evd, hevd, u, hu, rfl⟩
        exact ⟨evd, hevd, u, hu, rfl⟩
      · exact pred_clash (pred_of_mem_refListSeg hG hx) hpred (by decide)
    · intro evd hevd u hu
      exact (hmemS _).mpr (Or.inr (Or.inr (Or.inr (Or.inr (Or.inr (Or.inr (Or.inr
        (Or.inr (Or.inl ((refListSeg_ok_mem hI _).mpr ⟨evd, hevd, u, hu, rfl⟩))))))))))
    · intro x hx hpred
      rcases (hmemS x).mp hx with rfl | hx | hx | hx | hx | hx | hx | hx | hx | hx
      · exact pred_clash_mk hpred (by decide)
      · exact pred_clash (pred_of_mem_langSeg hx) hpred (by decide)
      · exact pred_clash (pred_of_mem_langSeg hx) hpred (by decide)
      · exact pred_clash (pred_of_mem_plainLitSeg hx) hpred (by decide)
      · exact pred_clash (pred_of_mem_refOptSeg hA hx) hpred (by decide)
      · exact pred_clash (pred_of_mem_refListSeg hF hx) hpred (by decide)
      · exact pred_clash (pred_of_mem_refListSeg hL hx) hpred (by decide)
      · exact pred_clash (pred_of_mem_typedLitSeg hx) hpred (by decide)
      · exact pred_clash (pred_of_mem_refListSeg hI hx) hpred (by decide)
      · rcases (refListSeg_ok_mem hG x).mp hx with ⟨evt, hevt, u, hu, rfl⟩
        exact ⟨evt, hevt, u, hu, rfl⟩
    · intro evt hevt u hu
      exact (hmemS _).mpr (Or.inr (Or.inr (Or.inr (Or.inr (Or.inr (Or.inr (Or.inr
        (Or.inr (Or.inr ((refListSeg_ok_mem hG _).mpr ⟨evt, hevt, u, hu, rfl⟩))))))))))
  · rcases legalResource_toGraph_mem hl with ⟨subj, typesT, relatedT, hidL, hT, hRel, hmemL⟩
    rcases legalResource_toGraph_subj hl with ⟨subj2, hid2, hsubj⟩
    rw [hidL] at hid2
    cases Option.some.inj hid2
    refine ⟨subj, hidL, hsubj, ?_, ?_, ?_, ?_, ?_, ?_⟩
    · intro x hx hpred
      rcases (hmemL x).mp hx with rfl | hx | hx | hx | hx | hx
      · exact pred_clash_mk hpred (by decide)
      · rcases (refListSeg_ok_mem hT x).mp hx with ⟨rt, hrt, u, hu, rfl⟩
        exact ⟨rt, hrt, u, hu, rfl⟩
      · exact pred_clash (pred_of_mem_plainLitSeg hx) hpred (by decide)
      · exact pred_clash (pred_of_mem_langSeg hx) hpred (by decide)
      · exact pred_clash (pred_of_mem_uriListSeg hx) hpred (by decide)
      · exact pred_clash (pred_of_mem_refListSeg hRel hx) hpred (by decide)
    · intro rt hrt u hu
      exact (hmemL _).mpr (Or.inr (Or.inl
        ((refListSeg_ok_mem hT _).mpr ⟨rt, hrt, u, hu, rfl⟩)))
    · intro x hx hpred
      rcases (hmemL x).mp hx with rfl | hx | hx | hx | hx | hx
      · exact pred_clash_mk hpred (by decide)
      · exact pred_clash (pred_of_mem_refListSeg hT hx) hpred (by decide)
      · exact pred_clash (pred_of_mem_plainLitSeg hx) hpred (by decide)
      · exact pred_clash (pred_of_mem_langSeg hx) hpred (by decide)
      · exact pred_clash (pred_of_mem_uriListSeg hx) hpred (by decide)
      · rcases (refListSeg_ok_mem hRel x).mp hx with ⟨lr, hlr, u, hu, rfl⟩
        exact ⟨lr, hlr, u, hu, rfl⟩
    · intro lr hlr u hu
      exact (hmemL _).mpr (Or.inr (Or.inr (Or.inr (Or.inr (Or.inr
        ((refListSeg_ok_mem hRel _).mpr ⟨lr, hlr, u, hu, rfl⟩))))))
    · intro x hx hpred
      rcases (hmemL x).mp hx with rfl | hx | hx | hx | hx | hx
      · exact pred_clash_mk hpred (by decide)
      · exact pred_clash (pred_of_mem_refListSeg hT hx) hpred (by decide)
      · exact pred_clash (pred_of_mem_plainLitSeg hx) hpred (by decide)
      · exact pred_clash (pred_of_mem_langSeg hx) hpred (by decide)
      · rcases mem_uriListSeg.mp hx with ⟨u, hu, rfl⟩
        exact ⟨u, hu, rfl⟩
      · exact pred_clash (pred_of_mem_refListSeg hRel hx) hpred (by decide)
    · intro u hu
      exact (hmemL _).mpr (Or.inr (Or.inr (Or.inr (Or.inr (Or.inl
        (mem_uriListSeg.mpr ⟨u, hu, rfl⟩))))))
  · rcases evidence_toGraph_mem hev with ⟨subj, hidEv, hmemEv⟩
    rcases evidence_toGraph_subj hev with ⟨subj2, hid2, hsubj⟩
    rw [hidEv] at hid2
    cases Option.some.inj hid2
    refine ⟨subj, hidEv, hsubj, ?_, ?_, ?_, ?_⟩
    · intro x hx hpred
      rcases (hmemEv x).mp hx with rfl | hx | hx | hx | hx | hx | hx
      · exact pred_clash_mk hpred (by decide)
      · exact pred_clash (pred_of_mem_plainLitSeg hx) hpred (by decide)
      · exact pred_clash (pred_of_mem_langSeg hx) hpred (by decide)
      · exact pred_clash (pred_of_mem_langSeg hx) hpred (by decide)
      · exact pred_clash (pred_of_mem_uriOptSeg hx) hpred (by decide)
      · rcases mem_uriListSeg.mp hx with ⟨u, hu, rfl⟩
        exact ⟨u, hu, rfl⟩
      · exact pred_clash (pred_of_mem_uriListSeg hx) hpred (by decide)
    · intro u hu
      exact (hmemEv _).mpr (Or.inr (Or.inr (Or.inr (Or.inr (Or.inr (Or.inl
        (mem_uriListSeg.mpr ⟨u, hu, rfl⟩)))))))
    · intro x hx hpred
      rcases (hmemEv x).mp hx with rfl | hx | hx | hx | hx | hx | hx
      · exact pred_clash_mk hpred (by decide)
      · exact pred_clash (pred_of_mem_plainLitSeg hx) hpred (by decide)
      · exact pred_clash (pred_of_mem_langSeg hx) hpred (by decide)
      · exact pred_clash (pred_of_mem_langSeg hx) hpred (by decide)
      · exact pred_clash (pred_of_mem_uriOptSeg hx) hpred (by decide)
      · exact pred_clash (pred_of_mem_uriListSeg hx) hpred (by decide)
      · rcases mem_uriListSeg.mp hx with ⟨u, hu, rfl⟩
        exact ⟨u, hu, rfl⟩
    · intro u hu
      exact (hmemEv _).mpr (Or.inr (Or.inr (Or.inr (Or.inr (Or.inr (Or.inr
        (mem_uriListSeg.mpr ⟨u, hu, rfl⟩)))))))
  · rcases event_toGraph_mem he with ⟨subj, hidE, hmemE⟩
    rcases event_toGraph_subj he with ⟨subj2, hid2, hsubj⟩
    rw [hidE] at hid2
    cases Option.some.inj hid2
    refine ⟨subj, hidE, hsubj, ?_, ?_⟩
    · intro x hx hpred
      rcases (hmemE x).mp hx with rfl | hx | hx | hx | hx | hx
      · exact pred_clash_mk hpred (by decide)
      · exact pred_clash (pred_of_mem_plainLitSeg hx) hpred (by decide)
      · exact pred_clash (pred_of_mem_langSeg hx) hpred (by decide)
      · exact pred_clash (pred_of_mem_langSeg hx) hpred (by decide)
      · exact pred_clash (pred_of_mem_uriOptSeg hx) hpred (by decide)
      · rcases mem_uriListSeg.mp hx with ⟨u, hu, rfl⟩
        exact ⟨u, hu, rfl⟩
    · intro u hu
      exact (hmemE _).mpr (Or.inr (Or.inr (Or.inr (Or.inr (Or.inr
        (mem_uriListSeg.mpr ⟨u, hu, rfl⟩))))))
  · rcases publicOrganization_toGraph_subj hp with ⟨subj, hidP, hsubj⟩
    exact ⟨subj, hidP, hsubj⟩
  · rcases criterionRequirement_toGraph_mem hc with ⟨subj, hidC, hmemC⟩
    rcases criterionRequirement_toGraph_subj hc with ⟨subj2, hid2, hsubj⟩
    rw [hidC] at hid2
    cases Option.some.inj hid2
    refine ⟨subj, hidC, hsubj, ?_, ?_⟩
    · intro x hx hpred
      rcases (hmemC x).mp hx with rfl | hx | hx | hx
      · exact pred_clash_mk hpred (by decide)
      · exact pred_clash (pred_of_mem_langSeg hx) hpred (by decide)
      · exact pred_clash (pred_of_mem_typedLitSeg hx) hpred (by decide)
      · rcases mem_uriListSeg.mp hx with ⟨u, hu, rfl⟩
        exact ⟨u, hu, rfl⟩
    · intro u hu
      exact (hmemC _).mpr (Or.inr (Or.inr (Or.inr (mem_uriListSeg.mpr ⟨u, hu, rfl⟩))))

/-- Witness for C5 at concrete inputs: the two-implements scenario of
`test_rule.py` (both link triples present, implements count exactly
two), plus a `Service.has_input` link and an `Evidence.related_documentation`
bare-URI link. -/
theorem C5_reference_lists_link_only_witness :
    (⟨"http://example.com/rules/1", cpsv "implements",
      Obj.uri "https://example.com/legalresources/1"⟩ : Triple) ∈
      ([⟨"http://example.com/rules/1", rdfType, Obj.uri (cpsv "Rule")⟩,
        ⟨"http://example.com/rules/1", cpsv "implements",
          Obj.uri "https://example.com/legalresources/1"⟩,
        ⟨"http://example.com/rules/1", cpsv "implements",
          Obj.uri "https://example.com/legalresources/2"⟩] : List Triple) ∧
    (⟨"http://example.com/rules/1", cpsv "implements",
      Obj.uri "https://example.com/legalresources/2"⟩ : Triple) ∈
      ([⟨"http://example.com/rules/1", rdfType, Obj.uri (cpsv "Rule")⟩,
        ⟨"http://example.com/rules/1", cpsv "implements",
          Obj.uri "https://example.com/legalresources/1"⟩,
        ⟨"http://example.com/rules/1", cpsv "implements",
          Obj.uri "https://example.com/legalresources/2"⟩] : List Triple) ∧
    countPred [⟨"http://example.com/rules/1", rdfType, Obj.uri (cpsv "Rule")⟩,
        ⟨"http://example.com/rules/1", cpsv "implements",
          Obj.uri "https://example.com/legalresources/1"⟩,
        ⟨"http://example.com/rules/1", cpsv "implements",
          Obj.uri "https://example.com/legalresources/2"⟩] (cpsv "implements") = 2 ∧
    (⟨"http://example.com/services/1", cpsv "hasInput",
      Obj.uri "http://example.com/evidences/1"⟩ : Triple) ∈
      ([⟨"http://example.com/services/1", rdfType, Obj.uri (cpsv "PublicService")⟩,
        ⟨"http://example.com/services/1", cpsv "hasInput",
          Obj.uri "http://example.com/evidences/1"⟩] : List Triple) ∧
    (⟨"http://example.com/evidences/9", foaf "page",
      Obj.uri "https://example.com/pages/1"⟩ : Triple) ∈
      ([⟨"http://example.com/evidences/9", rdfType, Obj.uri (cpsv "Evidence")⟩,
        ⟨"http://example.com/evidences/9", foaf "page",
          Obj.uri "https://example.com/pages/1"⟩] : List Triple) := by
  have h := C5_reference_lists_link_only "http://example.com" "tok"
    { Rule.init (some "http://example.com/rules/1") with
        implements := [LegalResource.init (some "https://example.com/legalresources/1"),
          LegalResource.init (some "https://example.com/legalresources/2")] }
    _ _ rfl
    ⟨"http://example.com/services/1", none, none, none, none, [], [], none,
      [Evidence.init (some "http://example.com/evidences/1")], []⟩ _ rfl
    (LegalResource.init (some "http://example.com/legalresources/9")) _ _ rfl
    ⟨some "http://example.com/evidences/9", none, none, none, none,
      ["https://example.com/pages/1"], []⟩ _ _ rfl
    (Event.init (some "http://example.com/events/9")) _ _ rfl
    (PublicOrganization.init (some "http://example.com/organizations/9")) _ _ rfl
    (CriterionRequirement.init (some "http://example.com/criterion-requirements/9")) _ _ rfl
  rcases h.1 with ⟨subj, hid, _, _, hback, _⟩
  have hid2 : some "http://example.com/rules/1" = some subj := hid
  cases Option.some.inj hid2
  refine ⟨hback _ (List.mem_cons_self _ _) _ rfl,
    hback _ (List.mem_cons_of_mem _ (List.mem_cons_self _ _)) _ rfl,
    h.2.2.2.2.2.2.2.2, ?_, ?_⟩
  · exact (h.2.1).2.2.2.2.2.2.1 _ (List.mem_cons_self _ _) _ rfl
  · rcases h.2.2.2.1 with ⟨subjEv, hidEv, _, _, hbackEv, _⟩
    have hidEv2 : some "http://example.com/evidences/9" = some subjEv := hidEv
    cases Option.some.inj hidEv2
    exact hbackEv _ (List.mem_cons_self _ _)

end SCT
